import Mathlib

/-!
# Cgroup v1 plugin (`src/plugins/cgroup/v1/cgroup_v1.c`)

A shallow embedding of the cgroup v1 plugin (hierarchy manager, limit
controller, OOM monitor and accounting), and the properties of it that are
settled here.

The plugin keeps its state in file-level arrays indexed by the controller
(`g_step_active_cnt`, `g_step_cgpath`, ...) and does all of its work through
the cgroup primitive layer (`common_cgroup_*`, `xcgroup_*`), which is not part
of the file.  In the embedding

* the file-level variables are the fields of `cg_state`;
* every call of a primitive is appended to `cg_state.trace` together with the
  status it returned;
* what a primitive returns is read from an environment `Env`: the status of
  the call that is made when `k` calls have been made before it is
  `Env.rc k call`, so that every outcome of every call can be chosen freely;
* a C `int` status is an `Int`, `uint16_t` arithmetic is arithmetic modulo
  `2 ^ 16` on `Nat`, and `uint64_t` arithmetic is arithmetic modulo `2 ^ 64`;
* the accounting lists are the fields of `acct_state` and the variables of the
  OOM manager the fields of `oom_state`; the monitor thread is a function of
  the list of the wakeups of its `poll` loop.
-/

namespace CgroupV1

/-! ## Constants -/

/-- Modelled from the spec: the status macro `SLURM_SUCCESS` is declared in a
header that is not part of the sources; its value is `0`. -/
def SLURM_SUCCESS : Int := 0

/-- Modelled from the spec: the status macro `SLURM_ERROR` is declared in a
header that is not part of the sources; its value is `-1`. -/
def SLURM_ERROR : Int := -1

/-- Modelled from the spec: `NO_VAL64`, the reserved 64-bit "unset" value, is
declared in a header that is not part of the sources. -/
def NO_VAL64 : Nat := 0xfffffffffffffffe

/-- The controller type `cgroup_ctl_type_t`.  The enumeration is declared in a
header outside the sources; the order of its members is the order of the table
`g_cg_name` (freezer, cpuset, memory, devices, cpuacct).  A C enumeration is an
integer, so values from `CG_CTL_CNT` on exist too: they take the `default:`
arm of every `switch`. -/
abbrev cgroup_ctl_type_t := Nat

def CG_TRACK : cgroup_ctl_type_t := 0
def CG_CPUS : cgroup_ctl_type_t := 1
def CG_MEMORY : cgroup_ctl_type_t := 2
def CG_DEVICES : cgroup_ctl_type_t := 3
def CG_CPUACCT : cgroup_ctl_type_t := 4
def CG_CTL_CNT : cgroup_ctl_type_t := 5

/-- The table `g_cg_name`. -/
def g_cg_name (sub : cgroup_ctl_type_t) : String :=
  match sub with
  | 0 => "freezer"
  | 1 => "cpuset"
  | 2 => "memory"
  | 3 => "devices"
  | 4 => "cpuacct"
  | _ => ""

/-- Increment of a `uint16_t`. -/
def u16_inc (n : Nat) : Nat := (n + 1) % 65536

/-- Decrement of a `uint16_t`. -/
def u16_dec (n : Nat) : Nat := (n + 65535) % 65536

/-! ## Cgroup handles, primitive calls and the environment -/

/-- The `xcgroup_t` objects the plugin passes to the primitive layer: the
entries of the arrays `g_root_cg`, `g_user_cg`, `g_job_cg`, `g_step_cg` and
`g_sys_cg`, the local `slurm_cg` of `_cpuset_create`, and the `task_cg` member
of the record `task_cg_info_t` of a task of a controller. -/
inductive cg_ref where
  | root (sub : cgroup_ctl_type_t)
  | user (sub : cgroup_ctl_type_t)
  | job (sub : cgroup_ctl_type_t)
  | step (sub : cgroup_ctl_type_t)
  | sys (sub : cgroup_ctl_type_t)
  | slurm (sub : cgroup_ctl_type_t)
  | task (sub : cgroup_ctl_type_t) (taskid : Nat)
deriving DecidableEq

/-- A call of a function of the cgroup primitive layer, with the arguments the
plugin passes, or one of the calls of the operating system that the OOM
manager makes (`open`, `eventfd`, `write`, `pipe2`, `close`, and the creation
and the join of the monitor thread). -/
inductive prim_call where
  | xcgroup_create_hierarchy (sub : cgroup_ctl_type_t)
  | xcgroup_create_slurm_cg (sub : cgroup_ctl_type_t)
  | xcgroup_load (sub : cgroup_ctl_type_t) (cg : cg_ref) (path : String)
  | xcgroup_cpuset_init (cg : cg_ref)
  | xcgroup_wait_pid_moved (cg : cg_ref)
  | xcgroup_lock (cg : cg_ref)
  | xcgroup_unlock (cg : cg_ref)
  | common_cgroup_create (sub : cgroup_ctl_type_t) (cg : cg_ref) (path : String)
      (uid gid : Nat)
  | common_cgroup_instantiate (cg : cg_ref)
  | common_cgroup_add_pids (cg : cg_ref) (pids : List Nat)
  | common_cgroup_move_process (cg : cg_ref) (pid : Nat)
  | common_cgroup_delete (cg : cg_ref)
  | common_cgroup_destroy (cg : cg_ref)
  | common_cgroup_get_param (cg : cg_ref) (param : String)
  | common_cgroup_set_param (cg : cg_ref) (param : String) (value : Option String)
  | common_cgroup_set_uint64_param (cg : cg_ref) (param : String) (value : Nat)
  | xcgroup_get_uint64_param (cg : cg_ref) (param : String)
  | sys_open (path : String) (wronly : Bool)
  | sys_eventfd
  | sys_write_str (fd : Int) (data : String)
  | sys_pipe2
  | sys_close (fd : Int)
  | sys_write_u64 (fd : Int) (value : Nat)
  | pthread_create
  | pthread_join
deriving DecidableEq

/-- One entry of the trace: a primitive call and the status it returned. -/
structure event where
  call : prim_call
  rc : Int
deriving DecidableEq

/-- What `xcgroup_create_hierarchy` leaves in the three path buffers and in
the `path` member of the three handles it is given. -/
structure hier_out where
  user_cgpath : String
  job_cgpath : String
  step_cgpath : String
  user_path : Option String
  job_path : Option String
  step_path : Option String

/-- The environment of a run: the answers of the primitive layer and of the
operating system.  The first argument of `rc`, `str`, `size`, `hier`, `u64`,
`pipe_fds` and `eintr` is the number of primitive calls made before the call
that is answered. -/
structure Env where
  /-- status returned by a primitive call -/
  rc : Nat → prim_call → Int
  /-- string handed back by a primitive call (`NULL` is `none`) -/
  str : Nat → prim_call → Option String
  /-- size handed back by `common_cgroup_get_param` -/
  size : Nat → prim_call → Nat
  /-- buffers written by `xcgroup_create_hierarchy` -/
  hier : Nat → cgroup_ctl_type_t → hier_out
  /-- value handed back by `xcgroup_get_uint64_param` -/
  u64 : Nat → prim_call → Nat
  /-- the two descriptors `pipe2` stores -/
  pipe_fds : Nat → Int × Int
  /-- whether `errno` is `EINTR` after a call that failed -/
  eintr : Nat → Bool
  getpid : Nat
  getuid : Nat
  getgid : Nat
  /-- the configuration value `slurm_conf.job_acct_gather_type` -/
  job_acct_gather_type : Option String

/-- The file-level variables of the plugin, and the trace of primitive calls.
`cg_path r` is the `path` member of the handle `r`. -/
structure cg_state where
  g_user_cgpath : cgroup_ctl_type_t → String
  g_job_cgpath : cgroup_ctl_type_t → String
  g_step_cgpath : cgroup_ctl_type_t → String
  g_step_active_cnt : cgroup_ctl_type_t → Nat
  cg_path : cg_ref → Option String
  trace : List event

/-- The fields of `stepd_step_rec_t` the plugin uses. -/
structure stepd_step_rec_t where
  jmgr_pid : Nat
  cont_id : Nat
  uid : Nat
  gid : Nat

/-- The state `init` leaves: empty paths, all counts zero. -/
def init_state : cg_state :=
  { g_user_cgpath := fun _ => ""
    g_job_cgpath := fun _ => ""
    g_step_cgpath := fun _ => ""
    g_step_active_cnt := fun _ => 0
    cg_path := fun _ => none
    trace := [] }

/-- A call of a primitive that returns a status: the status comes from the
environment and the call is appended to the trace. -/
def prim (env : Env) (c : prim_call) (s : cg_state) : Int × cg_state :=
  (env.rc s.trace.length c,
   { s with trace := s.trace ++ [⟨c, env.rc s.trace.length c⟩] })

/-- Modelled from the spec: `common_cgroup_destroy` (body not in the sources)
invalidates the in-memory handle; its `path` member becomes `NULL`. -/
def common_cgroup_destroy (env : Env) (cg : cg_ref) (s : cg_state) : cg_state :=
  { (prim env (.common_cgroup_destroy cg) s).2 with
    cg_path := Function.update s.cg_path cg none }

/-- Modelled from the spec: `xcgroup_create_hierarchy` (body not in the
sources) builds the user, job and step nodes of a controller.  Nothing is
assumed about what it leaves in the buffers and handles it is given: that is
read from the environment. -/
def xcgroup_create_hierarchy (env : Env) (sub : cgroup_ctl_type_t) (s : cg_state) :
    Int × cg_state :=
  let h := env.hier s.trace.length sub
  let r := prim env (.xcgroup_create_hierarchy sub) s
  (r.1,
   { r.2 with
     g_user_cgpath := Function.update s.g_user_cgpath sub h.user_cgpath
     g_job_cgpath := Function.update s.g_job_cgpath sub h.job_cgpath
     g_step_cgpath := Function.update s.g_step_cgpath sub h.step_cgpath
     cg_path :=
       Function.update
         (Function.update (Function.update s.cg_path (.user sub) h.user_path)
           (.job sub) h.job_path)
         (.step sub) h.step_path })

/-! ## Hierarchy manager -/

/-- The function `_remove_cg_subsystem`. -/
def _remove_cg_subsystem (env : Env) (root_cg step_cg job_cg user_cg : cg_ref)
    (s : cg_state) : Int × cg_state :=
  let r1 := prim env (.common_cgroup_move_process root_cg env.getpid) s
  if r1.1 ≠ SLURM_SUCCESS then
    -- goto end
    (r1.1, (prim env (.xcgroup_unlock root_cg) r1.2).2)
  else
    let s2 := (prim env (.xcgroup_wait_pid_moved step_cg) r1.2).2
    let r3 := prim env (.xcgroup_lock root_cg) s2
    if r3.1 ≠ SLURM_SUCCESS then
      (SLURM_ERROR, r3.2)
    else
      let r4 := prim env (.common_cgroup_delete step_cg) r3.2
      if r4.1 ≠ SLURM_SUCCESS then
        (r4.1, (prim env (.xcgroup_unlock root_cg) r4.2).2)
      else
        let r5 := prim env (.common_cgroup_delete job_cg) r4.2
        if r5.1 ≠ SLURM_SUCCESS then
          (SLURM_SUCCESS, (prim env (.xcgroup_unlock root_cg) r5.2).2)
        else
          let r6 := prim env (.common_cgroup_delete user_cg) r5.2
          if r6.1 ≠ SLURM_SUCCESS then
            (SLURM_SUCCESS, (prim env (.xcgroup_unlock root_cg) r6.2).2)
          else
            let s7 := common_cgroup_destroy env user_cg r6.2
            let s8 := common_cgroup_destroy env job_cg s7
            let s9 := common_cgroup_destroy env step_cg s8
            (r6.1, (prim env (.xcgroup_unlock root_cg) s9).2)

/-- The controller-specific action of `cgroup_p_step_destroy` (its `switch`),
for a controller below `CG_CTL_CNT`: the memory controller writes
`memory.force_empty` when accounting is done through cgroups and the step
handle has a path. -/
def step_destroy_custom (env : Env) (sub : cgroup_ctl_type_t) (s : cg_state) :
    cg_state :=
  if sub = CG_MEMORY then
    if env.job_acct_gather_type = some "jobacct_gather/cgroup" ∧
        (s.cg_path (.step CG_MEMORY)).isSome then
      (prim env (.common_cgroup_set_param (.step CG_MEMORY) "memory.force_empty"
        (some "1")) s).2
    else s
  else s

/-- The function `cgroup_p_step_destroy`. -/
def cgroup_p_step_destroy (env : Env) (sub : cgroup_ctl_type_t) (s : cg_state) :
    Int × cg_state :=
  if s.g_step_active_cnt sub = 0 then
    (SLURM_SUCCESS, s)
  else if s.g_step_active_cnt sub > 1 then
    (SLURM_SUCCESS,
     { s with
       g_step_active_cnt :=
         Function.update s.g_step_active_cnt sub (u16_dec (s.g_step_active_cnt sub)) })
  else if CG_CTL_CNT ≤ sub then
    -- default:
    (SLURM_ERROR, s)
  else
    let s1 := step_destroy_custom env sub s
    let r := _remove_cg_subsystem env (.root sub) (.step sub) (.job sub) (.user sub) s1
    if r.1 = SLURM_SUCCESS then
      (r.1,
       { r.2 with
         g_step_active_cnt := Function.update r.2.g_step_active_cnt sub 0
         g_step_cgpath := Function.update r.2.g_step_cgpath sub "" })
    else r

/-- A call of a primitive that returns a string instead of a status
(`xcgroup_create_slurm_cg`): the trace records success when the string is not
`NULL`. -/
def prim_str (env : Env) (c : prim_call) (s : cg_state) : Option String × cg_state :=
  (env.str s.trace.length c,
   { s with
     trace := s.trace ++
       [⟨c, if (env.str s.trace.length c).isSome then SLURM_SUCCESS else SLURM_ERROR⟩] })

/-- The creation of the system cpuset in `_cpuset_create` (the branch
`job == NULL`), up to the label `end`. -/
def cpuset_create_system (env : Env) (slurm_cgpath : String) (s : cg_state) :
    Int × cg_state :=
  let r1 := prim env
    (.common_cgroup_create CG_CPUS (.sys CG_CPUS) (slurm_cgpath ++ "/system")
      env.getuid env.getgid) s
  if r1.1 ≠ SLURM_SUCCESS then r1
  else
    let r2 := prim env (.common_cgroup_instantiate (.sys CG_CPUS)) r1.2
    if r2.1 ≠ SLURM_SUCCESS then r2
    else
      let s3 := (prim env
        (.common_cgroup_set_param (.sys CG_CPUS) "notify_on_release" (some "0")) r2.2).2
      prim env (.xcgroup_cpuset_init (.sys CG_CPUS)) s3

/-- The function `_cpuset_create`; `job` is `none` for the `NULL` pointer. -/
def _cpuset_create (env : Env) (job : Option stepd_step_rec_t) (s : cg_state) :
    Int × cg_state :=
  let r1 := prim_str env (.xcgroup_create_slurm_cg CG_CPUS) s
  match r1.1 with
  | none => (SLURM_ERROR, r1.2)
  | some slurm_cgpath =>
    let r2 := prim env (.xcgroup_load CG_CPUS (.slurm CG_CPUS) slurm_cgpath) r1.2
    if r2.1 ≠ SLURM_SUCCESS then
      (SLURM_ERROR, r2.2)
    else
      let cpus_size :=
        env.size r2.2.trace.length (.common_cgroup_get_param (.slurm CG_CPUS) "cpuset.cpus")
      let r3 := prim env (.common_cgroup_get_param (.slurm CG_CPUS) "cpuset.cpus") r2.2
      let r4 : Int × cg_state :=
        if r3.1 ≠ SLURM_SUCCESS ∨ cpus_size = 1 then
          prim env (.xcgroup_cpuset_init (.slurm CG_CPUS)) r3.2
        else (SLURM_SUCCESS, r3.2)
      if r4.1 ≠ SLURM_SUCCESS then
        (SLURM_ERROR, common_cgroup_destroy env (.slurm CG_CPUS) r4.2)
      else
        let r5 : Int × cg_state :=
          match job with
          | none => cpuset_create_system env slurm_cgpath r4.2
          | some _ => xcgroup_create_hierarchy env CG_CPUS r4.2
        -- end:
        (r5.1, common_cgroup_destroy env (.slurm CG_CPUS) r5.2)

/-- The label `step_c_err` of `cgroup_p_step_create`: the count is decremented
and `rc` is returned. -/
def step_c_err (sub : cgroup_ctl_type_t) (rc : Int) (job : stepd_step_rec_t)
    (s : cg_state) : Int × stepd_step_rec_t × cg_state :=
  (rc, job,
   { s with
     g_step_active_cnt :=
       Function.update s.g_step_active_cnt sub (u16_dec (s.g_step_active_cnt sub)) })

/-- The `CG_MEMORY` arm of `cgroup_p_step_create`, after the increment of the
count. -/
def step_create_memory (env : Env) (sub : cgroup_ctl_type_t) (job : stepd_step_rec_t)
    (s : cg_state) : Int × stepd_step_rec_t × cg_state :=
  let r1 := xcgroup_create_hierarchy env sub s
  if r1.1 ≠ SLURM_SUCCESS then
    step_c_err sub r1.1 job r1.2
  else
    let r2 := prim env
      (.common_cgroup_set_param (.user sub) "memory.use_hierarchy" (some "1")) r1.2
    if r2.1 ≠ SLURM_SUCCESS then
      (r2.1, job, (cgroup_p_step_destroy env sub r2.2).2)
    else
      let r3 := prim env
        (.common_cgroup_set_param (.job sub) "memory.use_hierarchy" (some "1")) r2.2
      if r3.1 ≠ SLURM_SUCCESS then
        (r3.1, job, (cgroup_p_step_destroy env sub r3.2).2)
      else
        let r4 := prim env
          (.common_cgroup_set_param (.step sub) "memory.use_hierarchy" (some "1")) r3.2
        -- rc = (common_cgroup_set_param(...) != SLURM_SUCCESS)
        if r4.1 ≠ SLURM_SUCCESS then
          (1, job, (cgroup_p_step_destroy env sub r4.2).2)
        else
          (0, job, r4.2)

/-- The function `cgroup_p_step_create`.  It returns the status, the job record
(whose `cont_id` the tracking controller sets) and the new state. -/
def cgroup_p_step_create (env : Env) (sub : cgroup_ctl_type_t) (job : stepd_step_rec_t)
    (s : cg_state) : Int × stepd_step_rec_t × cg_state :=
  let s0 : cg_state :=
    { s with
      g_step_active_cnt :=
        Function.update s.g_step_active_cnt sub (u16_inc (s.g_step_active_cnt sub)) }
  if sub = CG_TRACK then
    let r1 := xcgroup_create_hierarchy env sub s0
    if r1.1 ≠ SLURM_SUCCESS then
      step_c_err sub r1.1 job r1.2
    else
      let r2 := prim env (.common_cgroup_add_pids (.job sub) [job.jmgr_pid]) r1.2
      if r2.1 ≠ SLURM_SUCCESS then
        step_c_err sub r1.1 job (cgroup_p_step_destroy env sub r2.2).2
      else
        (r1.1, { job with cont_id := job.jmgr_pid }, r2.2)
  else if sub = CG_CPUS then
    let r1 := _cpuset_create env (some job) s0
    if r1.1 ≠ SLURM_SUCCESS then step_c_err sub r1.1 job r1.2
    else (r1.1, job, r1.2)
  else if sub = CG_MEMORY then
    step_create_memory env sub job s0
  else if sub = CG_DEVICES then
    let r1 := xcgroup_create_hierarchy env sub s0
    if r1.1 ≠ SLURM_SUCCESS then step_c_err sub r1.1 job r1.2
    else (r1.1, job, r1.2)
  else
    -- case CG_CPUACCT: and default:
    step_c_err sub SLURM_ERROR job s0

/-- Repeated calls of `cgroup_p_step_destroy` for one controller: the statuses
of the `n` calls, in order, and the state after the last one. -/
def step_destroy_n (env : Env) (sub : cgroup_ctl_type_t) :
    Nat → cg_state → List Int × cg_state
  | 0, s => ([], s)
  | n + 1, s =>
    let r := cgroup_p_step_destroy env sub s
    let rest := step_destroy_n env sub n r.2
    (r.1 :: rest.1, rest.2)

/-! ## Limit controller -/

/-- The fields of `cgroup_limits_t` the plugin uses; a `char *` member is an
optional string. -/
structure cgroup_limits_t where
  allow_cores : Option String
  cores_size : Nat
  allow_mems : Option String
  mems_size : Nat
  limit_in_bytes : Nat
  soft_limit_in_bytes : Nat
  kmem_limit_in_bytes : Nat
  memsw_limit_in_bytes : Nat
  swappiness : Nat
  allow_device : Bool
  device_major : Option String

/-- The function `cgroup_p_root_constrain_set`; `limits` is `none` for the `NULL`
pointer. -/
def cgroup_p_root_constrain_set (env : Env) (sub : cgroup_ctl_type_t)
    (limits : Option cgroup_limits_t) (s : cg_state) : Int × cg_state :=
  match limits with
  | none => (SLURM_ERROR, s)
  | some limits =>
    if sub = CG_TRACK then (SLURM_SUCCESS, s)
    else if sub = CG_CPUS then (SLURM_SUCCESS, s)
    else if sub = CG_MEMORY then
      prim env
        (.common_cgroup_set_uint64_param (.root CG_MEMORY) "memory.swappiness"
          limits.swappiness) s
    else if sub = CG_DEVICES then (SLURM_SUCCESS, s)
    else (SLURM_ERROR, s)

/-- The function `cgroup_p_system_constrain_set`. -/
def cgroup_p_system_constrain_set (env : Env) (sub : cgroup_ctl_type_t)
    (limits : Option cgroup_limits_t) (s : cg_state) : Int × cg_state :=
  match limits with
  | none => (SLURM_ERROR, s)
  | some limits =>
    if sub = CG_TRACK then (SLURM_SUCCESS, s)
    else if sub = CG_CPUS then
      prim env (.common_cgroup_set_param (.sys CG_CPUS) "cpuset.cpus" limits.allow_cores) s
    else if sub = CG_MEMORY then
      -- the status of the write is not assigned to rc
      (SLURM_SUCCESS,
       (prim env
        (.common_cgroup_set_uint64_param (.sys CG_MEMORY) "memory.limit_in_bytes"
          limits.limit_in_bytes) s).2)
    else if sub = CG_DEVICES then (SLURM_SUCCESS, s)
    else (SLURM_ERROR, s)

/-- The function `cgroup_p_user_constrain_set` (its `job` argument is not
used). -/
def cgroup_p_user_constrain_set (env : Env) (sub : cgroup_ctl_type_t)
    (limits : Option cgroup_limits_t) (s : cg_state) : Int × cg_state :=
  match limits with
  | none => (SLURM_ERROR, s)
  | some limits =>
    if sub = CG_TRACK then (SLURM_SUCCESS, s)
    else if sub = CG_CPUS then
      let r1 := prim env
        (.common_cgroup_set_param (.user CG_CPUS) "cpuset.cpus" limits.allow_cores) s
      let r2 := prim env
        (.common_cgroup_set_param (.user CG_CPUS) "cpuset.mems" limits.allow_mems) r1.2
      (r1.1 + r2.1, r2.2)
    else if sub = CG_MEMORY then (SLURM_SUCCESS, s)
    else if sub = CG_DEVICES then (SLURM_SUCCESS, s)
    else (SLURM_ERROR, s)

/-- The `CG_CPUS` arm of the job-level and step-level `constrain_set`: both
masks are written to the handle `cg`, and the statuses are added. -/
def constrain_set_cpus (env : Env) (cg : cg_ref) (limits : cgroup_limits_t)
    (s : cg_state) : Int × cg_state :=
  let r1 := prim env (.common_cgroup_set_param cg "cpuset.cpus" limits.allow_cores) s
  let r2 := prim env (.common_cgroup_set_param cg "cpuset.mems" limits.allow_mems) r1.2
  (r1.1 + r2.1, r2.2)

/-- The `CG_MEMORY` arm of the job-level and step-level `constrain_set`: the
hard and the soft limit are written, the kernel-memory and the memory+swap
limit are written when they are not `NO_VAL64`, and the statuses are added. -/
def constrain_set_memory (env : Env) (cg : cg_ref) (limits : cgroup_limits_t)
    (s : cg_state) : Int × cg_state :=
  let r1 := prim env
    (.common_cgroup_set_uint64_param cg "memory.limit_in_bytes" limits.limit_in_bytes) s
  let r2 := prim env
    (.common_cgroup_set_uint64_param cg "memory.soft_limit_in_bytes"
      limits.soft_limit_in_bytes) r1.2
  let r3 : Int × cg_state :=
    if limits.kmem_limit_in_bytes ≠ NO_VAL64 then
      prim env
        (.common_cgroup_set_uint64_param cg "memory.kmem.limit_in_bytes"
          limits.kmem_limit_in_bytes) r2.2
    else (0, r2.2)
  let r4 : Int × cg_state :=
    if limits.memsw_limit_in_bytes ≠ NO_VAL64 then
      prim env
        (.common_cgroup_set_uint64_param cg "memory.memsw.limit_in_bytes"
          limits.memsw_limit_in_bytes) r3.2
    else (0, r3.2)
  (r1.1 + r2.1 + r3.1 + r4.1, r4.2)

/-- The `CG_DEVICES` arm of the job-level and step-level `constrain_set`. -/
def constrain_set_devices (env : Env) (cg : cg_ref) (limits : cgroup_limits_t)
    (s : cg_state) : Int × cg_state :=
  if limits.allow_device then
    prim env (.common_cgroup_set_param cg "devices.allow" limits.device_major) s
  else
    prim env (.common_cgroup_set_param cg "devices.deny" limits.device_major) s

/-- The function `cgroup_p_job_constrain_set` (its `job` argument is not used). -/
def cgroup_p_job_constrain_set (env : Env) (sub : cgroup_ctl_type_t)
    (limits : Option cgroup_limits_t) (s : cg_state) : Int × cg_state :=
  match limits with
  | none => (SLURM_ERROR, s)
  | some limits =>
    if sub = CG_TRACK then (SLURM_SUCCESS, s)
    else if sub = CG_CPUS then constrain_set_cpus env (.job CG_CPUS) limits s
    else if sub = CG_MEMORY then constrain_set_memory env (.job CG_MEMORY) limits s
    else if sub = CG_DEVICES then constrain_set_devices env (.job CG_DEVICES) limits s
    else (SLURM_ERROR, s)

/-- The function `cgroup_p_step_constrain_set`, built without `HAVE_NATIVE_CRAY`
(its `job` argument is then not used). -/
def cgroup_p_step_constrain_set (env : Env) (sub : cgroup_ctl_type_t)
    (limits : Option cgroup_limits_t) (s : cg_state) : Int × cg_state :=
  match limits with
  | none => (SLURM_ERROR, s)
  | some limits =>
    if sub = CG_TRACK then (SLURM_SUCCESS, s)
    else if sub = CG_CPUS then constrain_set_cpus env (.step CG_CPUS) limits s
    else if sub = CG_MEMORY then constrain_set_memory env (.step CG_MEMORY) limits s
    else if sub = CG_DEVICES then constrain_set_devices env (.step CG_DEVICES) limits s
    else (SLURM_ERROR, s)

/-! ## Reading the trace -/

/-- The primitive calls made between two states: the part of the trace of
`s'` that follows the trace of `s`. -/
def new_events (s s' : cg_state) : List event :=
  s'.trace.drop s.trace.length

/-- The calls that only release something held in memory (the lock on a node,
a handle), as opposed to those that act on the cgroup tree. -/
def is_release : prim_call → Bool
  | .xcgroup_unlock _ => true
  | .common_cgroup_destroy _ => true
  | _ => false

/-- The six calls of `_remove_cg_subsystem` that act on the cgroup tree, in
the order in which the function body lists them. -/
def removal_sequence (env : Env) (root_cg step_cg job_cg user_cg : cg_ref) :
    List prim_call :=
  [.common_cgroup_move_process root_cg env.getpid,
   .xcgroup_wait_pid_moved step_cg,
   .xcgroup_lock root_cg,
   .common_cgroup_delete step_cg,
   .common_cgroup_delete job_cg,
   .common_cgroup_delete user_cg]

/-- The primitive calls one run of `_remove_cg_subsystem` makes, with their
statuses. -/
def remove_events (env : Env) (root_cg step_cg job_cg user_cg : cg_ref) (s : cg_state) :
    List event :=
  new_events s (_remove_cg_subsystem env root_cg step_cg job_cg user_cg s).2

/-! ## Sample environments -/

/-- An environment in which every primitive succeeds, accounting is done
through cgroups, and the hierarchy of job 7, step 0 of user 1000 is built. -/
def env_ok : Env :=
  { rc := fun _ _ => SLURM_SUCCESS
    str := fun _ _ => some "/slurm"
    size := fun _ _ => 4
    hier := fun _ _ =>
      { user_cgpath := "/slurm/uid_1000"
        job_cgpath := "/slurm/uid_1000/job_7"
        step_cgpath := "/slurm/uid_1000/job_7/step_0"
        user_path := some "/sys/fs/cgroup/slurm/uid_1000"
        job_path := some "/sys/fs/cgroup/slurm/uid_1000/job_7"
        step_path := some "/sys/fs/cgroup/slurm/uid_1000/job_7/step_0" }
    u64 := fun _ _ => 0
    pipe_fds := fun _ => (10, 11)
    eintr := fun _ => false
    getpid := 4242
    getuid := 0
    getgid := 0
    job_acct_gather_type := some "jobacct_gather/cgroup" }

/-- As `env_ok`, but attaching pids (`common_cgroup_add_pids`) fails. -/
def env_attach_fails : Env :=
  { env_ok with
    rc := fun _ c =>
      match c with
      | .common_cgroup_add_pids _ _ => SLURM_ERROR
      | _ => SLURM_SUCCESS }

/-- As `env_ok`, but every write of a 64-bit parameter
(`common_cgroup_set_uint64_param`) fails. -/
def env_write_fails : Env :=
  { env_ok with
    rc := fun _ c =>
      match c with
      | .common_cgroup_set_uint64_param _ _ _ => SLURM_ERROR
      | _ => SLURM_SUCCESS }

/-- As `env_ok`, but deleting a job node fails (a sibling step is alive). -/
def env_job_busy : Env :=
  { env_ok with
    rc := fun _ c =>
      match c with
      | .common_cgroup_delete (.job _) => SLURM_ERROR
      | _ => SLURM_SUCCESS }

/-- A job record: the step daemon has pid 4242. -/
def job0 : stepd_step_rec_t :=
  { jmgr_pid := 4242, cont_id := 0, uid := 1000, gid := 1000 }

/-- The state after `init` in which controller `sub` is held by `n`
consumers. -/
def state_with_count (sub : cgroup_ctl_type_t) (n : Nat) : cg_state :=
  { init_state with
    g_step_active_cnt := Function.update init_state.g_step_active_cnt sub n }

/-- As `env_ok`, but every write of a string parameter fails and no node can
be deleted. -/
def env_stuck : Env :=
  { env_ok with
    rc := fun _ c =>
      match c with
      | .common_cgroup_set_param _ _ _ => SLURM_ERROR
      | .common_cgroup_delete _ => SLURM_ERROR
      | _ => SLURM_SUCCESS }

/-- Limits in which only the hard memory limit (1 GiB) is set: the soft, the
kernel-memory and the memory+swap limit are `NO_VAL64`. -/
def limits_hard_only : cgroup_limits_t :=
  { allow_cores := none
    cores_size := 0
    allow_mems := none
    mems_size := 0
    limit_in_bytes := 1073741824
    soft_limit_in_bytes := NO_VAL64
    kmem_limit_in_bytes := NO_VAL64
    memsw_limit_in_bytes := NO_VAL64
    swappiness := NO_VAL64
    allow_device := false
    device_major := none }

/-! ## The limit controller in the words of the specification -/

/-- The writes that apply to the memory controller at job or step level, as
the specification lists them: the hard limit, the soft limit, the
kernel-memory limit when it is set and the memory+swap limit when it is set. -/
def memory_writes (cg : cg_ref) (limits : cgroup_limits_t) : List prim_call :=
  [.common_cgroup_set_uint64_param cg "memory.limit_in_bytes" limits.limit_in_bytes,
   .common_cgroup_set_uint64_param cg "memory.soft_limit_in_bytes"
     limits.soft_limit_in_bytes] ++
  (if limits.kmem_limit_in_bytes = NO_VAL64 then []
   else [.common_cgroup_set_uint64_param cg "memory.kmem.limit_in_bytes"
     limits.kmem_limit_in_bytes]) ++
  (if limits.memsw_limit_in_bytes = NO_VAL64 then []
   else [.common_cgroup_set_uint64_param cg "memory.memsw.limit_in_bytes"
     limits.memsw_limit_in_bytes])

/-- The control file a parameter write goes to (`none` for the other calls). -/
def written_file : prim_call → Option String
  | .common_cgroup_set_param _ param _ => some param
  | .common_cgroup_set_uint64_param _ param _ => some param
  | _ => none

/-! ## Reading the limits back -/

/-- The terminator of a C string, the character with code 0. -/
def NUL : Char := Char.ofNat 0

/-- The limits object `xmalloc` hands out: every member is zero. -/
def limits_zero : cgroup_limits_t :=
  { allow_cores := none
    cores_size := 0
    allow_mems := none
    mems_size := 0
    limit_in_bytes := 0
    soft_limit_in_bytes := 0
    kmem_limit_in_bytes := 0
    memsw_limit_in_bytes := 0
    swappiness := 0
    allow_device := false
    device_major := none }

/-- The statement `if (size > 0) buf[size - 1] = 0` on a buffer handed back by
`common_cgroup_get_param`.  A buffer is the string of its bytes; a store
through a `NULL` buffer or past the end of the buffer is outside the model and
leaves the buffer as it is. -/
def terminate_at (buf : Option String) (size : Nat) : Option String :=
  if size > 0 then buf.map (fun v => String.mk (v.data.set (size - 1) NUL)) else buf

/-- The function `cgroup_p_root_constrain_get`; the result `none` is the `NULL`
pointer.  What `common_cgroup_get_param` stores in its two output arguments is
read from the environment, whatever status it returns. -/
def cgroup_p_root_constrain_get (env : Env) (sub : cgroup_ctl_type_t) (s : cg_state) :
    Option cgroup_limits_t × cg_state :=
  if sub = CG_TRACK then (some limits_zero, s)
  else if sub = CG_CPUS then
    let cores := env.str s.trace.length (.common_cgroup_get_param (.root CG_CPUS) "cpuset.cpus")
    let cores_size :=
      env.size s.trace.length (.common_cgroup_get_param (.root CG_CPUS) "cpuset.cpus")
    let r1 := prim env (.common_cgroup_get_param (.root CG_CPUS) "cpuset.cpus") s
    let mems :=
      env.str r1.2.trace.length (.common_cgroup_get_param (.root CG_CPUS) "cpuset.mems")
    let mems_size :=
      env.size r1.2.trace.length (.common_cgroup_get_param (.root CG_CPUS) "cpuset.mems")
    let r2 := prim env (.common_cgroup_get_param (.root CG_CPUS) "cpuset.mems") r1.2
    let limits : cgroup_limits_t :=
      { limits_zero with
        allow_cores := terminate_at cores cores_size
        cores_size := cores_size
        allow_mems := terminate_at mems mems_size
        mems_size := mems_size }
    if r1.1 + r2.1 ≠ SLURM_SUCCESS then
      -- fail: cgroup_free_limits(limits)
      (none, r2.2)
    else (some limits, r2.2)
  else if sub = CG_MEMORY ∨ sub = CG_DEVICES then (some limits_zero, s)
  else
    -- default: rc is set to SLURM_ERROR, the limits are returned all the same
    (some limits_zero, s)

/-- As `env_ok`, but reading a parameter fails. -/
def env_read_fails : Env :=
  { env_ok with
    rc := fun _ c =>
      match c with
      | .common_cgroup_get_param _ _ => SLURM_ERROR
      | _ => SLURM_SUCCESS }

/-- The read of `cpuset.cpus` from the root cpuset cgroup. -/
def root_cpus_read : prim_call :=
  .common_cgroup_get_param (.root CG_CPUS) "cpuset.cpus"

/-- The read of `cpuset.mems` from the root cpuset cgroup. -/
def root_mems_read : prim_call :=
  .common_cgroup_get_param (.root CG_CPUS) "cpuset.mems"

/-- In the words of the specification: a string with its last byte replaced
by the string terminator. -/
def replace_last (v : String) : String :=
  String.mk (v.data.dropLast ++ [NUL])

/-- White space in the sense of `isspace`: space, tab, newline, vertical tab,
form feed, carriage return. -/
def is_space (c : Char) : Bool :=
  c.toNat = 32 || (9 ≤ c.toNat && c.toNat ≤ 13)

/-- A decimal digit. -/
def is_digit (c : Char) : Bool :=
  48 ≤ c.toNat && c.toNat ≤ 57

/-- Modelled from the spec: skipping of leading white space, as `sscanf` does
for a white-space directive and before a `%s` or `%lu` conversion. -/
def skip_space : List Char → List Char
  | [] => []
  | c :: cs => if is_space c then skip_space cs else c :: cs

/-- The value of a run of decimal digits. -/
def dec_value (ds : List Char) : Nat :=
  ds.foldl (fun v c => 10 * v + (c.toNat - 48)) 0

/-- Modelled from the spec: the conversion `%*s` of `sscanf`: white space is
skipped, then a run of characters that are not white space is read and
discarded.  At the end of the input the conversion fails (`none`). -/
def scan_skip_word (inp : List Char) : Option (List Char) :=
  match skip_space inp with
  | [] => none
  | c :: cs => some ((c :: cs).dropWhile (fun d => !is_space d))

/-- The digits of a `%lu` conversion after the optional sign: the value (as
`strtoul` gives it: `ULONG_MAX` on overflow, negated modulo `2 ^ 64` after a
minus sign) and the rest of the input; `none` when there is no digit. -/
def scan_digits (neg : Bool) (inp : List Char) : Option (Nat × List Char) :=
  if inp.takeWhile is_digit = [] then none
  else
    some
      (if 2 ^ 64 ≤ dec_value (inp.takeWhile is_digit) then 2 ^ 64 - 1
       else if neg then (2 ^ 64 - dec_value (inp.takeWhile is_digit)) % 2 ^ 64
       else dec_value (inp.takeWhile is_digit),
       inp.dropWhile is_digit)

/-- Modelled from the spec: the conversion `%lu` of `sscanf` for a 64-bit
`unsigned long`: white space is skipped, an optional sign is read, then a
non-empty run of decimal digits. -/
def scan_ulong (inp : List Char) : Option (Nat × List Char) :=
  match skip_space inp with
  | [] => none
  | c :: cs =>
    if c.toNat = 45 then scan_digits true cs
    else if c.toNat = 43 then scan_digits false cs
    else scan_digits false (c :: cs)

/-- The directives of a `sscanf` format that the plugin uses. -/
inductive scan_item where
  | space
  | lit (c : Char)
  | skip_word
  | ulong
deriving DecidableEq

/-- Reading of a format string: `%*s`, `%lu`, white space, and ordinary
characters. -/
def parse_format_steps : Nat → List Char → List scan_item
  | 0, _ => []
  | _ + 1, [] => []
  | n + 1, c :: cs =>
    if (c :: cs).take 3 = "%*s".data then .skip_word :: parse_format_steps n (cs.drop 2)
    else if (c :: cs).take 3 = "%lu".data then .ulong :: parse_format_steps n (cs.drop 2)
    else if is_space c then .space :: parse_format_steps n cs
    else .lit c :: parse_format_steps n cs

/-- The directives of a format string (one step per character is enough). -/
def parse_format (format : List Char) : List scan_item :=
  parse_format_steps format.length format

/-- Modelled from the spec: `sscanf` runs the directives in order and stops
at the first one that fails; the result is the list of the values converted by
`%lu`, in order. -/
def sscanf_run : List scan_item → List Char → List Nat
  | [], _ => []
  | .space :: fmt, inp => sscanf_run fmt (skip_space inp)
  | .lit c :: fmt, inp =>
    match inp with
    | [] => []
    | d :: rest => if d = c then sscanf_run fmt rest else []
  | .skip_word :: fmt, inp =>
    match scan_skip_word inp with
    | none => []
    | some rest => sscanf_run fmt rest
  | .ulong :: fmt, inp =>
    match scan_ulong inp with
    | none => []
    | some (v, rest) => v :: sscanf_run fmt rest

/-- Modelled from the spec: `sscanf(str, format, ...)`, as the list of the
values it stores through its pointer arguments, in order. -/
def sscanf (str : String) (format : String) : List Nat :=
  sscanf_run (parse_format format.data) str.data

/-- Whether `needle` is an initial segment of `hay`. -/
def starts_with : List Char → List Char → Bool
  | _, [] => true
  | [], _ :: _ => false
  | h :: hay, n :: needle => h = n && starts_with hay needle

/-- The search of `strstr`: the part of `hay` from the first occurrence of
`needle` on. -/
def strstr : List Char → List Char → Option (List Char)
  | [], needle => if needle = [] then some [] else none
  | h :: hay, needle =>
    if starts_with (h :: hay) needle then some (h :: hay) else strstr hay needle

/-- Modelled from the spec: `xstrstr` (not part of the sources) is `strstr`
that gives `NULL` for a `NULL` argument. -/
def xstrstr (hay : Option String) (needle : String) : Option String :=
  match hay with
  | none => none
  | some h => (strstr h.data needle.data).map String.mk

/-! ## Accounting -/

/-- The record `task_cg_info_t`: the cgroup of a task and the task id. -/
structure task_cg_info_t where
  task_cg : cg_ref
  taskid : Nat
deriving DecidableEq

/-- The accounting variables of the plugin: the task lists
`g_task_acct_list`, one per controller, and `g_max_task_id`.  A list that
exists is the list of its records, in order.  The list `freed_in_list` holds,
with their controller, the records whose memory was released (`xfree`) while a
task list still links them.  While it is empty every record of the task lists
is live; once it is not, the next walk of that task list reads released memory,
and what the source does from there on is not defined: the functions below
then go on with the values the records had. -/
structure acct_state where
  g_task_acct_list : cgroup_ctl_type_t → List task_cg_info_t
  g_max_task_id : Nat
  freed_in_list : List (cgroup_ctl_type_t × task_cg_info_t)

/-- The accounting variables with every task list empty, as
`cgroup_p_accounting_init` leaves the lists. -/
def acct_empty : acct_state :=
  { g_task_acct_list := fun _ => []
    g_max_task_id := 0
    freed_in_list := [] }

/-- The statistics record `cgroup_acct_t`. -/
structure cgroup_acct_t where
  usec : Nat
  ssec : Nat
  total_rss : Nat
  total_pgmajfault : Nat
deriving DecidableEq

/-- The function `_find_task_cg_info`: 1 when the record has the task id `key`,
0 otherwise. -/
def _find_task_cg_info (x : task_cg_info_t) (key : Nat) : Int :=
  if x.taskid = key then 1 else 0

/-- Modelled from the spec: `list_find_first` (the list library is not part of
the sources) returns the first record for which the callback does not return
0, or `NULL`. -/
def list_find_first (l : List task_cg_info_t) (f : task_cg_info_t → Nat → Int) (key : Nat) :
    Option task_cg_info_t :=
  l.find? (fun x => f x key ≠ 0)

/-- The function `_free_task_cg_info`, on a record that is not `NULL`: the
effect on the handles.  The release of the record itself shows in the
accounting variables, see `xfree_task_cg_info`. -/
def _free_task_cg_info (env : Env) (t : task_cg_info_t) (s : cg_state) : cg_state :=
  common_cgroup_destroy env t.task_cg s

/-- The function `_rmdir_task`: the status of the deletion is only logged. -/
def _rmdir_task (env : Env) (t : task_cg_info_t) (s : cg_state) : Int × cg_state :=
  (SLURM_SUCCESS, (prim env (.common_cgroup_delete t.task_cg) s).2)

/-- Modelled from the spec: `list_for_each` (the list library is not part of
the sources) with the callback `_rmdir_task`: the callback is run on the
records in order, and the walk stops when it returns a negative value. -/
def list_for_each_rmdir (env : Env) : List task_cg_info_t → cg_state → cg_state
  | [], s => s
  | t :: ts, s =>
    if (_rmdir_task env t s).1 < 0 then (_rmdir_task env t s).2
    else list_for_each_rmdir env ts (_rmdir_task env t s).2

/-- Modelled from the spec: `list_flush` (the list library is not part of the
sources) removes every record from the list and runs the delete function of
the list, `_free_task_cg_info`, on each; this is the effect on the handles. -/
def list_flush (env : Env) (l : List task_cg_info_t) (s : cg_state) : cg_state :=
  l.foldl (fun st t => _free_task_cg_info env t st) s

/-- The release of the record `task_cg_info` on the two failure paths of
`_handle_task_cgroup` (`xfree(task_cg_info)`, and the `xfree` at the end of
`_free_task_cg_info(task_cg_info)`).  Neither path looks at `need_to_add`: when
the record was allocated by this call (`found` is `none`) no list links it;
when it was found in the task list of the controller, it is released while the
list still links it. -/
def xfree_task_cg_info (sub : cgroup_ctl_type_t) (found : Option task_cg_info_t)
    (a : acct_state) : acct_state :=
  match found with
  | none => a
  | some t => { a with freed_in_list := a.freed_in_list ++ [(sub, t)] }

/-- The function `_handle_task_cgroup`.  The relative path built by
`xstrfmtcat` is never `NULL`.  When `common_cgroup_create` or
`common_cgroup_instantiate` fails, the record is released, also when it was
found in the list: the list is not changed and still links it. -/
def _handle_task_cgroup (env : Env) (sub : cgroup_ctl_type_t) (pid : Nat)
    (job : stepd_step_rec_t) (taskid : Nat) (s : cg_state) (a : acct_state) :
    Int × cg_state × acct_state :=
  let task_cgroup_path := s.g_step_cgpath sub ++ "/task_" ++ toString taskid
  let found := list_find_first (a.g_task_acct_list sub) _find_task_cg_info taskid
  let need_to_add := found.isNone
  let task_cg_info : task_cg_info_t := found.getD ⟨.task sub taskid, taskid⟩
  let r1 := prim env
    (.common_cgroup_create sub task_cg_info.task_cg task_cgroup_path job.uid job.gid) s
  if r1.1 ≠ SLURM_SUCCESS then
    (SLURM_ERROR, r1.2, xfree_task_cg_info sub found a)
  else
    let r2 := prim env (.common_cgroup_instantiate task_cg_info.task_cg) r1.2
    if r2.1 ≠ SLURM_SUCCESS then
      (SLURM_ERROR, _free_task_cg_info env task_cg_info r2.2,
       xfree_task_cg_info sub found a)
    else
      let s3 := (prim env
        (.common_cgroup_set_param task_cg_info.task_cg "notify_on_release" (some "0"))
        r2.2).2
      let r4 := prim env (.common_cgroup_move_process task_cg_info.task_cg pid) s3
      (r4.1, r4.2,
       if need_to_add then
         { a with
           g_task_acct_list :=
             Function.update a.g_task_acct_list sub
               (a.g_task_acct_list sub ++ [task_cg_info]) }
       else a)

/-- The function `cgroup_p_task_addto_accounting`. -/
def cgroup_p_task_addto_accounting (env : Env) (pid : Nat) (job : stepd_step_rec_t)
    (task_id : Nat) (s : cg_state) (a : acct_state) : Int × cg_state × acct_state :=
  let a1 : acct_state :=
    if task_id > a.g_max_task_id then { a with g_max_task_id := task_id } else a
  let r1 := xcgroup_create_hierarchy env CG_CPUACCT s
  if r1.1 ≠ SLURM_SUCCESS then
    (SLURM_ERROR, r1.2, a1)
  else
    let r2 := xcgroup_create_hierarchy env CG_MEMORY r1.2
    if r2.1 ≠ SLURM_SUCCESS then
      (SLURM_ERROR, (cgroup_p_step_destroy env CG_CPUACCT r2.2).2, a1)
    else
      let h1 := _handle_task_cgroup env CG_CPUACCT pid job task_id r2.2 a1
      let h2 := _handle_task_cgroup env CG_MEMORY pid job task_id h1.2.1 h1.2.2
      -- the two statuses are not assigned to rc
      (SLURM_SUCCESS, h2.2.1, h2.2.2)

/-- The state of the handles after the first four statements of
`cgroup_p_accounting_fini`: the task directories of the memory and of the
cpu-accounting list have been walked with `_rmdir_task` and the lists
flushed. -/
def accounting_fini_flush (env : Env) (s : cg_state) (a : acct_state) : cg_state :=
  let s1 := list_for_each_rmdir env (a.g_task_acct_list CG_MEMORY) s
  let s2 := list_flush env (a.g_task_acct_list CG_MEMORY) s1
  let s3 := list_for_each_rmdir env (a.g_task_acct_list CG_CPUACCT) s2
  list_flush env (a.g_task_acct_list CG_CPUACCT) s3

/-- The function `cgroup_p_accounting_fini`. -/
def cgroup_p_accounting_fini (env : Env) (s : cg_state) (a : acct_state) :
    Int × cg_state × acct_state :=
  let s4 := accounting_fini_flush env s a
  let a4 : acct_state :=
    { a with
      g_task_acct_list :=
        Function.update (Function.update a.g_task_acct_list CG_MEMORY []) CG_CPUACCT [] }
  let d1 := cgroup_p_step_destroy env CG_MEMORY s4
  let d2 := cgroup_p_step_destroy env CG_CPUACCT d1.2
  (d1.1 + d2.1, d2.2, a4)

/-- The function `cgroup_p_task_get_acct_data`; the result `none` is the `NULL`
pointer.  The statuses of the two reads are not looked at; the strings they
hand back are read from the environment. -/
def cgroup_p_task_get_acct_data (env : Env) (taskid : Nat) (s : cg_state) (a : acct_state) :
    Option cgroup_acct_t × cg_state :=
  let task_memory_cg := list_find_first (a.g_task_acct_list CG_MEMORY) _find_task_cg_info taskid
  let task_cpuacct_cg :=
    list_find_first (a.g_task_acct_list CG_CPUACCT) _find_task_cg_info taskid
  match task_cpuacct_cg, task_memory_cg with
  | none, _ => (none, s)
  | some _, none => (none, s)
  | some cpuacct_cg, some memory_cg =>
    let cpu_time :=
      env.str s.trace.length (.common_cgroup_get_param cpuacct_cg.task_cg "cpuacct.stat")
    let s1 := (prim env (.common_cgroup_get_param cpuacct_cg.task_cg "cpuacct.stat") s).2
    let memory_stat :=
      env.str s1.trace.length (.common_cgroup_get_param memory_cg.task_cg "memory.stat")
    let s2 := (prim env (.common_cgroup_get_param memory_cg.task_cg "memory.stat") s1).2
    let cpu : List Nat :=
      match cpu_time with
      | none => []
      | some str => sscanf str "%*s %lu %*s %lu"
    let rss : List Nat :=
      match xstrstr memory_stat "total_rss" with
      | none => []
      | some ptr => sscanf ptr "total_rss %lu"
    let pgmajfault : List Nat :=
      match xstrstr memory_stat "total_pgmajfault" with
      | none => []
      | some ptr => sscanf ptr "total_pgmajfault %lu"
    (some
      { usec := cpu[0]?.getD NO_VAL64
        ssec := cpu[1]?.getD NO_VAL64
        total_rss := rss[0]?.getD NO_VAL64
        total_pgmajfault := pgmajfault[0]?.getD NO_VAL64 },
     s2)

/-- A call of the accounting interface: `_handle_task_cgroup` for a controller,
or `cgroup_p_task_addto_accounting`. -/
inductive acct_call where
  | handle (sub : cgroup_ctl_type_t) (pid : Nat) (taskid : Nat)
  | addto (pid : Nat) (taskid : Nat)

/-- One call of the accounting interface on the state. -/
def acct_step (env : Env) (job : stepd_step_rec_t) (c : acct_call)
    (st : cg_state × acct_state) : cg_state × acct_state :=
  match c with
  | .handle sub pid taskid => (_handle_task_cgroup env sub pid job taskid st.1 st.2).2
  | .addto pid taskid => (cgroup_p_task_addto_accounting env pid job taskid st.1 st.2).2

/-- A sequence of calls of the accounting interface, in order. -/
def acct_run (env : Env) (job : stepd_step_rec_t) (calls : List acct_call)
    (st : cg_state × acct_state) : cg_state × acct_state :=
  calls.foldl (fun x c => acct_step env job c x) st

/-- As `env_ok`, but no cgroup can be created (`common_cgroup_create` fails). -/
def env_create_fails : Env :=
  { env_ok with
    rc := fun _ c =>
      match c with
      | .common_cgroup_create _ _ _ _ _ => SLURM_ERROR
      | _ => SLURM_SUCCESS }

/-- As `env_ok`, but no directory can be deleted. -/
def env_delete_fails : Env :=
  { env_ok with
    rc := fun _ c =>
      match c with
      | .common_cgroup_delete _ => SLURM_ERROR
      | _ => SLURM_SUCCESS }

/-! ## OOM monitor -/

/-- The stop message `STOP_OOM`. -/
def STOP_OOM : Nat := 0x987987987

/-- Modelled from the spec: the flag `POLLIN` of `poll`, declared in a system
header; the Linux value. -/
def POLLIN : Nat := 0x001

/-- Modelled from the spec: the flag `POLLPRI` of `poll`; the Linux value. -/
def POLLPRI : Nat := 0x002

/-- Modelled from the spec: the flag `POLLERR` of `poll`; the Linux value. -/
def POLLERR : Nat := 0x008

/-- Modelled from the spec: the flag `POLLHUP` of `poll`; the Linux value. -/
def POLLHUP : Nat := 0x010

/-- Modelled from the spec: the flag `POLLNVAL` of `poll`; the Linux value. -/
def POLLNVAL : Nat := 0x020

/-- Modelled from the spec: the flag `POLLRDHUP` of `poll`; the Linux value. -/
def POLLRDHUP : Nat := 0x2000

/-- The mask `POLLRDHUP | POLLERR | POLLHUP | POLLNVAL` the monitor tests. -/
def POLL_ERROR_MASK : Nat := POLLRDHUP ||| POLLERR ||| POLLHUP ||| POLLNVAL

/-- What one call of `read` in `_read_fd` does: the value it returns (-1, 0, or
the number of bytes stored, which is at most the number asked for), whether
`errno` is `EINTR` when it returns -1, and the value of the 64-bit word `*buf`
after the call when the bytes are stored at `buf` itself. -/
structure read_result where
  nread : Int
  eintr : Bool
  value : Nat

/-- The loop of `_read_fd`: `len` bytes are still wanted, `at_buf` says whether
`buf_ptr` still is `buf`, and `v` is the value of `*buf`.  The pointer `buf_ptr`
is a `uint64_t *`, so after a read of `nread` bytes it moves past `*buf`: only
a first read stores into `*buf`.  The result is `none` when the outcomes of
`read` are used up before the loop ends. -/
def _read_fd_loop : List read_result → Nat → Bool → Nat → Option (Int × Nat)
  | _, 0, _, v => some (SLURM_SUCCESS, v)
  | [], _ + 1, _, _ => none
  | r :: rs, len + 1, at_buf, v =>
    if r.nread = 0 then some (SLURM_ERROR, v)
    else if r.nread = -1 then
      if r.eintr then _read_fd_loop rs (len + 1) at_buf v else some (SLURM_ERROR, v)
    else _read_fd_loop rs (len + 1 - r.nread.toNat) false (if at_buf then r.value else v)

/-- The function `_read_fd` on a buffer that holds `res`: the status and the
value of the buffer afterwards. -/
def _read_fd (reads : List read_result) (res : Nat) : Option (Int × Nat) :=
  _read_fd_loop reads 8 true res

/-- One return of `poll` in the monitor thread: the value returned, whether
`errno` is `EINTR`, the flags returned for the event descriptor (`fds[0]`) and
for the read end of the pipe (`fds[1]`), and what the calls of `read` on the
two descriptors do during this wakeup. -/
structure wakeup where
  ret : Int
  eintr : Bool
  revents0 : Nat
  revents1 : Nat
  event_reads : List read_result
  pipe_reads : List read_result

/-- The part of the loop body of `_oom_event_monitor` that handles the event
descriptor: the new value of `oom_kill_count` and whether the loop is left. -/
def oom_monitor_event (w : wakeup) (cnt : Nat) : Option (Nat × Bool) :=
  if w.revents0 &&& (POLLIN ||| POLLPRI) ≠ 0 then
    match _read_fd w.event_reads 0 with
    | none => none
    | some (rc, res) =>
      if rc = SLURM_SUCCESS then some ((cnt + res) % 2 ^ 64, false) else some (cnt, false)
  else if w.revents0 &&& POLL_ERROR_MASK ≠ 0 then some (cnt, true)
  else some (cnt, false)

/-- The part of the loop body of `_oom_event_monitor` that handles the pipe:
whether the loop is left. -/
def oom_monitor_pipe (w : wakeup) : Option Bool :=
  if w.revents1 &&& POLLIN ≠ 0 then
    match _read_fd w.pipe_reads 0 with
    | none => none
    | some (rc, res) => some (decide (rc = SLURM_SUCCESS ∧ res = STOP_OOM))
  else if w.revents1 &&& POLL_ERROR_MASK ≠ 0 then some true
  else some false

/-- One iteration of the loop of `_oom_event_monitor`: the new value of
`oom_kill_count` and whether the loop is left (`break`); `none` when a read
does not come back. -/
def oom_monitor_wakeup (w : wakeup) (cnt : Nat) : Option (Nat × Bool) :=
  if w.ret = -1 then
    if w.eintr then some (cnt, false) else some (cnt, true)
  else if w.ret = 0 then some (cnt, true)
  else if w.ret > 0 then
    match oom_monitor_event w cnt with
    | none => none
    | some (cnt1, true) => some (cnt1, true)
    | some (cnt1, false) =>
      match oom_monitor_pipe w with
      | none => none
      | some b => some (cnt1, b)
  else some (cnt, false)

/-- The loop `while (1)` of `_oom_event_monitor` over the wakeups of the
thread: the value of `oom_kill_count` when the loop is left, or `none` when the
thread is still waiting in `poll` after the last wakeup. -/
def oom_monitor_loop : List wakeup → Nat → Option Nat
  | [], _ => none
  | w :: ws, cnt =>
    match oom_monitor_wakeup w cnt with
    | none => none
    | some (cnt1, true) => some cnt1
    | some (cnt1, false) => oom_monitor_loop ws cnt1

/-- The record `oom_event_args_t`. -/
structure oom_event_args_t where
  cfd : Int
  efd : Int
  event_fd : Int

/-- The function `_oom_event_monitor`: the value of `oom_kill_count` when the
thread exits and the descriptors it closes before it exits. -/
def _oom_event_monitor (args : oom_event_args_t) (pipe0 : Int) (ws : List wakeup)
    (cnt : Nat) : Option (Nat × List Int) :=
  match oom_monitor_loop ws cnt with
  | none => none
  | some cnt1 =>
    some (cnt1,
      (if args.event_fd ≠ -1 then [args.event_fd] else []) ++
      (if args.efd ≠ -1 then [args.efd] else []) ++
      (if args.cfd ≠ -1 then [args.cfd] else []) ++
      (if pipe0 ≥ 0 then [pipe0] else []))

/-- The variables of the OOM manager: `oom_thread_created`, `oom_kill_count`,
`oom_pipe`, `oom_thread` (0 when no thread was created), and the monitor
thread itself while it can be joined: its arguments and the wakeups it has
ahead of it. -/
structure oom_state where
  oom_thread_created : Bool
  oom_kill_count : Nat
  oom_pipe : Int × Int
  oom_thread : Nat
  monitor : Option (oom_event_args_t × List wakeup)

/-- The variables of the OOM manager when the plugin is loaded. -/
def oom_init : oom_state :=
  { oom_thread_created := false
    oom_kill_count := 0
    oom_pipe := (-1, -1)
    oom_thread := 0
    monitor := none }

/-- The results record `cgroup_oom_t`. -/
structure cgroup_oom_t where
  step_mem_failcnt : Nat
  step_memsw_failcnt : Nat
  job_mem_failcnt : Nat
  job_memsw_failcnt : Nat
  oom_kill_cnt : Nat
deriving DecidableEq

/-- A descriptor is closed when it is not -1. -/
def close_fd (env : Env) (fd : Int) (s : cg_state) : cg_state :=
  if fd ≠ -1 then (prim env (.sys_close fd) s).2 else s

/-- The label `fini` of `cgroup_p_step_start_oom_mgr`. -/
def oom_start_fini (env : Env) (rc event_fd efd cfd : Int) (s : cg_state) (o : oom_state) :
    Int × cg_state × oom_state :=
  if !o.oom_thread_created then
    (rc,
     close_fd env o.oom_pipe.2
       (close_fd env o.oom_pipe.1
         (close_fd env cfd (close_fd env efd (close_fd env event_fd s)))),
     o)
  else (rc, s, o)

/-- The function `cgroup_p_step_start_oom_mgr`; `ws` are the wakeups the
monitor thread has ahead of it when it is created.  A `NULL` path is printed as
`(null)`. -/
def cgroup_p_step_start_oom_mgr (env : Env) (ws : List wakeup) (s : cg_state)
    (o : oom_state) : Int × cg_state × oom_state :=
  let path := (s.cg_path (.step CG_MEMORY)).getD "(null)"
  let r1 := prim env (.sys_open (path ++ "/memory.oom_control") false) s
  if r1.1 = -1 then oom_start_fini env SLURM_ERROR (-1) (-1) r1.1 r1.2 o
  else
    let r2 := prim env (.sys_open (path ++ "/cgroup.event_control") true) r1.2
    if r2.1 = -1 then oom_start_fini env SLURM_ERROR (-1) r2.1 r1.1 r2.2 o
    else
      let r3 := prim env .sys_eventfd r2.2
      if r3.1 = -1 then oom_start_fini env SLURM_ERROR r3.1 r2.1 r1.1 r3.2 o
      else
        let o1 : oom_state := { o with oom_kill_count := 0 }
        let r4 := prim env (.sys_write_str r2.1 (toString r3.1 ++ " " ++ toString r1.1)) r3.2
        if r4.1 = -1 then oom_start_fini env SLURM_ERROR r3.1 r2.1 r1.1 r4.2 o1
        else
          let fds := env.pipe_fds r4.2.trace.length
          let r5 := prim env .sys_pipe2 r4.2
          if r5.1 = -1 then oom_start_fini env SLURM_ERROR r3.1 r2.1 r1.1 r5.2 o1
          else
            let r6 := prim env .pthread_create r5.2
            oom_start_fini env SLURM_SUCCESS r3.1 r2.1 r1.1 r6.2
              { o1 with
                oom_pipe := fds
                oom_thread := 1
                monitor := some (⟨r1.1, r2.1, r3.1⟩, ws)
                oom_thread_created := true }

/-- The function `_failcnt`. -/
def _failcnt (env : Env) (cg : cg_ref) (param : String) (s : cg_state) : Nat × cg_state :=
  (if (prim env (.xcgroup_get_uint64_param cg param) s).1 ≠ SLURM_SUCCESS then 0
   else env.u64 s.trace.length (.xcgroup_get_uint64_param cg param),
   (prim env (.xcgroup_get_uint64_param cg param) s).2)

/-- The loop of `cgroup_p_step_stop_oom_mgr` that writes the stop message: the
write is repeated while it fails with `EINTR`.  The first argument bounds the
number of writes; the result is `none` when that bound is reached. -/
def write_stop_msg (env : Env) (fd : Int) : Nat → cg_state → Option cg_state
  | 0, _ => none
  | fuel + 1, s =>
    if (prim env (.sys_write_u64 fd STOP_OOM) s).1 = -1 ∧ env.eintr s.trace.length then
      write_stop_msg env fd fuel (prim env (.sys_write_u64 fd STOP_OOM) s).2
    else some (prim env (.sys_write_u64 fd STOP_OOM) s).2

/-- The join of the monitor thread in `cgroup_p_step_stop_oom_mgr`, with the
lock of `oom_mutex` that follows it.  The join returns when the thread has left
its loop; `oom_kill_count` then has the value the thread gave it.  The result
is `none` when the caller does not get past these statements: the thread never
leaves its loop, or the thread was joined before (`oom_thread` is set and no
thread is left to join).  In that last case an earlier stop has run to its end:
the join is of a thread that no longer exists, and `oom_mutex`, which the
caller locks next, was destroyed by that stop. -/
def oom_join (env : Env) (s : cg_state) (o : oom_state) : Option (cg_state × oom_state) :=
  if o.oom_thread = 0 then some (s, o)
  else
    match o.monitor with
    | none => none
    | some (args, ws) =>
      match _oom_event_monitor args o.oom_pipe.1 ws o.oom_kill_count with
      | none => none
      | some (cnt, _) =>
        some ((prim env .pthread_join s).2, { o with oom_kill_count := cnt, monitor := none })

/-- The label `fail_oom_results` of `cgroup_p_step_stop_oom_mgr`. -/
def oom_stop_fail (env : Env) (results : Option cgroup_oom_t) (s : cg_state) (o : oom_state) :
    Option cgroup_oom_t × cg_state × oom_state :=
  (results, close_fd env o.oom_pipe.2 s, o)

/-- The function `cgroup_p_step_stop_oom_mgr`; the results `none` are the
`NULL` pointer, and the outer `none` says that the call does not return: the
write of the stop message is interrupted `fuel` times, the monitor thread never
exits, or the thread was joined before (see `oom_join`). -/
def cgroup_p_step_stop_oom_mgr (env : Env) (fuel : Nat) (s : cg_state) (o : oom_state) :
    Option (Option cgroup_oom_t × cg_state × oom_state) :=
  if !o.oom_thread_created then some (oom_stop_fail env none s o)
  else
    let r1 := prim env (.xcgroup_lock (.step CG_MEMORY)) s
    if r1.1 ≠ SLURM_SUCCESS then some (oom_stop_fail env none r1.2 o)
    else
      let f1 := _failcnt env (.step CG_MEMORY) "memory.memsw.failcnt" r1.2
      let f2 := _failcnt env (.step CG_MEMORY) "memory.failcnt" f1.2
      let f3 := _failcnt env (.job CG_MEMORY) "memory.memsw.failcnt" f2.2
      let f4 := _failcnt env (.job CG_MEMORY) "memory.failcnt" f3.2
      let s5 := (prim env (.xcgroup_unlock (.step CG_MEMORY)) f4.2).2
      match write_stop_msg env o.oom_pipe.2 fuel s5 with
      | none => none
      | some s6 =>
        match oom_join env s6 o with
        | none => none
        | some (s7, o7) =>
          some (oom_stop_fail env
            (some
              { step_memsw_failcnt := f1.1
                step_mem_failcnt := f2.1
                job_memsw_failcnt := f3.1
                job_mem_failcnt := f4.1
                oom_kill_cnt := o7.oom_kill_count })
            s7 o7)

/-! ## The OOM monitor in the words of the specification -/

/-- The count the event source delivers in a wakeup: the value read from the
event descriptor when it is readable, 0 when it is not. -/
def delivered_count (w : wakeup) : Nat :=
  if w.revents0 &&& (POLLIN ||| POLLPRI) ≠ 0 then
    match _read_fd w.event_reads 0 with
    | some (_, res) => res
    | none => 0
  else 0

/-- Neither descriptor reports an error or hangup condition. -/
def no_error_flags (w : wakeup) : Prop :=
  w.revents0 &&& POLL_ERROR_MASK = 0 ∧ w.revents1 &&& POLL_ERROR_MASK = 0

/-- When the event descriptor is readable, the read of its 8 bytes succeeds. -/
def event_read_ok (w : wakeup) : Prop :=
  w.revents0 &&& (POLLIN ||| POLLPRI) ≠ 0 →
    (_read_fd w.event_reads 0).map Prod.fst = some SLURM_SUCCESS

/-- The wakeup delivers the stop message on the pipe. -/
def delivers_stop (w : wakeup) : Prop :=
  w.revents1 &&& POLLIN ≠ 0 ∧ _read_fd w.pipe_reads 0 = some (SLURM_SUCCESS, STOP_OOM)

/-- The wakeup does not deliver the stop message: the pipe is not readable, or
the read on it comes back with something else. -/
def delivers_no_stop (w : wakeup) : Prop :=
  w.revents1 &&& POLLIN ≠ 0 →
    (_read_fd w.pipe_reads 0).isSome ∧
      _read_fd w.pipe_reads 0 ≠ some (SLURM_SUCCESS, STOP_OOM)

/-- A wakeup in which the event source delivers the count `n` in one read of 8
bytes, and nothing else happens. -/
def wakeup_kills (n : Nat) : wakeup :=
  { ret := 1
    eintr := false
    revents0 := POLLIN
    revents1 := 0
    event_reads := [⟨8, false, n⟩]
    pipe_reads := [] }

/-- A wakeup in which the pipe delivers the stop message and the event source
is silent. -/
def wakeup_stop : wakeup :=
  { ret := 1
    eintr := false
    revents0 := 0
    revents1 := POLLIN
    event_reads := []
    pipe_reads := [⟨8, false, STOP_OOM⟩] }

/-- A wakeup in which the event descriptor is readable (one kill) and reports
a hangup, and the pipe is silent. -/
def wakeup_readable_hangup : wakeup :=
  { ret := 1
    eintr := false
    revents0 := POLLIN ||| POLLHUP
    revents1 := 0
    event_reads := [⟨8, false, 1⟩]
    pipe_reads := [] }

/-- A wakeup in which the event descriptor only reports a hangup. -/
def wakeup_hangup : wakeup :=
  { ret := 1
    eintr := false
    revents0 := POLLHUP
    revents1 := 0
    event_reads := []
    pipe_reads := [] }

/-- An environment for the OOM manager: `open` and `eventfd` return the
descriptors 7, 8 and 9, the writes return the number of bytes written, and
everything else succeeds. -/
def env_oom : Env :=
  { env_ok with
    rc := fun _ c =>
      match c with
      | .sys_open _ false => 7
      | .sys_open _ true => 8
      | .sys_eventfd => 9
      | .sys_write_str _ _ => 4
      | .sys_write_u64 _ _ => 8
      | _ => SLURM_SUCCESS }

/-- Two calls of `cgroup_p_step_stop_oom_mgr` in a row. -/
def stop_oom_mgr_twice (env : Env) (fuel : Nat) (s : cg_state) (o : oom_state) :
    Option (Option cgroup_oom_t × cg_state × oom_state) :=
  (cgroup_p_step_stop_oom_mgr env fuel s o).bind
    (fun x => cgroup_p_step_stop_oom_mgr env fuel x.2.1 x.2.2)

/-! ## The stat files in the words of the specification -/

/-- A decimal number below `NO_VAL64`, as a non-empty run of digits. -/
def decimal (ds : List Char) : Prop :=
  ds ≠ [] ∧ (∀ c ∈ ds, is_digit c = true) ∧ dec_value ds < NO_VAL64

/-- The first occurrence of `needle` in `text` is where `rest` begins: `text`
ends with `rest`, `rest` begins with `needle`, and `needle` does not occur at
an earlier position of `text`. -/
def first_occurrence (text needle rest : List Char) : Prop :=
  ∃ before, text = before ++ rest ∧ starts_with rest needle = true ∧
    ∀ i < before.length, starts_with (text.drop i) needle = false

/-- As `env_ok`, but the read of `cpuacct.stat` hands back `cpu` and every
other read hands back `mem`. -/
def env_stat (cpu mem : String) : Env :=
  { env_ok with
    str := fun _ c =>
      match c with
      | .common_cgroup_get_param _ param => if param = "cpuacct.stat" then some cpu else some mem
      | _ => none }

/-- Accounting variables in which task 3 has a record in every collection. -/
def acct_task3 : acct_state :=
  { g_task_acct_list := fun sub => [⟨.task sub 3, 3⟩]
    g_max_task_id := 3
    freed_in_list := [] }

/-- As `env_ok`, but a write of a string parameter to a step cgroup fails. -/
def env_step_write_fails : Env :=
  { env_ok with
    rc := fun _ c =>
      match c with
      | .common_cgroup_set_param (.step _) _ _ => SLURM_ERROR
      | _ => SLURM_SUCCESS }

/-- As `env_ok`, but a write of a string parameter to a user cgroup fails. -/
def env_user_write_fails : Env :=
  { env_ok with
    rc := fun _ c =>
      match c with
      | .common_cgroup_set_param (.user _) _ _ => SLURM_ERROR
      | _ => SLURM_SUCCESS }

/-- As `env_ok`, but a write of a string parameter to a job cgroup fails. -/
def env_job_write_fails : Env :=
  { env_ok with
    rc := fun _ c =>
      match c with
      | .common_cgroup_set_param (.job _) _ _ => SLURM_ERROR
      | _ => SLURM_SUCCESS }

/-- The six calls of `removal_sequence` with the statuses the environment gives
them when they are made one after the other, starting in state `s`. -/
def removal_outcomes (env : Env) (root_cg step_cg job_cg user_cg : cg_ref) (s : cg_state) :
    List event :=
  [⟨.common_cgroup_move_process root_cg env.getpid,
      env.rc s.trace.length (.common_cgroup_move_process root_cg env.getpid)⟩,
   ⟨.xcgroup_wait_pid_moved step_cg,
      env.rc (s.trace.length + 1) (.xcgroup_wait_pid_moved step_cg)⟩,
   ⟨.xcgroup_lock root_cg, env.rc (s.trace.length + 2) (.xcgroup_lock root_cg)⟩,
   ⟨.common_cgroup_delete step_cg,
      env.rc (s.trace.length + 3) (.common_cgroup_delete step_cg)⟩,
   ⟨.common_cgroup_delete job_cg,
      env.rc (s.trace.length + 4) (.common_cgroup_delete job_cg)⟩,
   ⟨.common_cgroup_delete user_cg,
      env.rc (s.trace.length + 5) (.common_cgroup_delete user_cg)⟩]

/-- How many of the six calls the removal order of the specification lets a run
make: the move always; the wait and the lock when the move succeeded; the
deletion of the step when the lock was taken; the deletion of the job when the
step was deleted; the deletion of the user when the job was deleted. -/
def removal_attempts (env : Env) (root_cg step_cg job_cg : cg_ref) (s : cg_state) : Nat :=
  if env.rc s.trace.length (.common_cgroup_move_process root_cg env.getpid) ≠ SLURM_SUCCESS
  then 1
  else if env.rc (s.trace.length + 2) (.xcgroup_lock root_cg) ≠ SLURM_SUCCESS then 3
  else if env.rc (s.trace.length + 3) (.common_cgroup_delete step_cg) ≠ SLURM_SUCCESS then 4
  else if env.rc (s.trace.length + 4) (.common_cgroup_delete job_cg) ≠ SLURM_SUCCESS then 5
  else 6

/-- The status the specification gives a removal: that of the failing move or
step deletion, `SLURM_ERROR` for a lock that is not taken, `SLURM_SUCCESS`
otherwise (also when the deletion of the job or of the user fails). -/
def removal_status (env : Env) (root_cg step_cg : cg_ref) (s : cg_state) : Int :=
  if env.rc s.trace.length (.common_cgroup_move_process root_cg env.getpid) ≠ SLURM_SUCCESS
  then env.rc s.trace.length (.common_cgroup_move_process root_cg env.getpid)
  else if env.rc (s.trace.length + 2) (.xcgroup_lock root_cg) ≠ SLURM_SUCCESS
  then SLURM_ERROR
  else if env.rc (s.trace.length + 3) (.common_cgroup_delete step_cg) ≠ SLURM_SUCCESS
  then env.rc (s.trace.length + 3) (.common_cgroup_delete step_cg)
  else SLURM_SUCCESS

/-- As `env_ok`, but `common_cgroup_create` succeeds only as the first call of
the run: a task cgroup that was created once cannot be created again. -/
def env_recreate_fails : Env :=
  { env_ok with
    rc := fun k c =>
      match c with
      | .common_cgroup_create _ _ _ _ _ => if k = 0 then SLURM_SUCCESS else SLURM_ERROR
      | _ => SLURM_SUCCESS }

/-- As `env_ok`, but `common_cgroup_instantiate` succeeds only within the first
four calls of the run: the task cgroup of the first call of
`_handle_task_cgroup` is instantiated, that of a second call is not. -/
def env_reinstantiate_fails : Env :=
  { env_ok with
    rc := fun k c =>
      match c with
      | .common_cgroup_instantiate _ => if k < 4 then SLURM_SUCCESS else SLURM_ERROR
      | _ => SLURM_SUCCESS }

/-! ## Theorems -/

theorem new_events_append (s s' : cg_state) (l : List event)
    (h : s'.trace = s.trace ++ l) : new_events s s' = l := by
  simp [new_events, h]

theorem slurm_error_ne_success : SLURM_ERROR ≠ SLURM_SUCCESS := by decide

@[simp] theorem prim_fst (env : Env) (c : prim_call) (s : cg_state) :
    (prim env c s).1 = env.rc s.trace.length c := rfl

@[simp] theorem prim_trace (env : Env) (c : prim_call) (s : cg_state) :
    (prim env c s).2.trace = s.trace ++ [⟨c, env.rc s.trace.length c⟩] := rfl

@[simp] theorem destroy_trace (env : Env) (cg : cg_ref) (s : cg_state) :
    (common_cgroup_destroy env cg s).trace =
      s.trace ++
        [⟨.common_cgroup_destroy cg, env.rc s.trace.length (.common_cgroup_destroy cg)⟩] :=
  rfl

/-! ### `_remove_cg_subsystem` -/

/-- C5: in every run of `_remove_cg_subsystem` (on distinct step, job and user
handles) the calls that act on the cgroup tree are an initial segment of: move
the own pid to the root node, wait for the move, lock the root node, delete the
step, delete the job, delete the user.  The job is deleted only after the step
was deleted with success and the user only after the job was.  A failing
deletion of the job or of the user gives `SLURM_SUCCESS`; a failing move, lock
or step deletion gives a status other than `SLURM_SUCCESS` and is the last call
that acts on the tree.  The calls are made: the calls of the run that act on the
tree are exactly the first `removal_attempts` of the six, each with the status
the environment gives it (the move in every run, the wait and the lock after a
successful move, the deletion of the step once the lock is taken, that of the
job once the step is deleted, that of the user once the job is deleted), and
the status returned is `removal_status`; when all six succeed it is
`SLURM_SUCCESS`. -/
theorem remove_cg_subsystem_order (env : Env) (root_cg step_cg job_cg user_cg : cg_ref)
    (s : cg_state) (hsj : step_cg ≠ job_cg) (hsu : step_cg ≠ user_cg)
    (hju : job_cg ≠ user_cg) :
    (((remove_events env root_cg step_cg job_cg user_cg s).map event.call).filter
        (fun c => !is_release c)
      <+: removal_sequence env root_cg step_cg job_cg user_cg) ∧
    (∀ rc, ⟨.common_cgroup_delete job_cg, rc⟩ ∈
        remove_events env root_cg step_cg job_cg user_cg s →
      ⟨.common_cgroup_delete step_cg, SLURM_SUCCESS⟩ ∈
        remove_events env root_cg step_cg job_cg user_cg s) ∧
    (∀ rc, ⟨.common_cgroup_delete user_cg, rc⟩ ∈
        remove_events env root_cg step_cg job_cg user_cg s →
      ⟨.common_cgroup_delete job_cg, SLURM_SUCCESS⟩ ∈
        remove_events env root_cg step_cg job_cg user_cg s) ∧
    (∀ rc, rc ≠ SLURM_SUCCESS →
      (⟨.common_cgroup_delete job_cg, rc⟩ ∈
          remove_events env root_cg step_cg job_cg user_cg s ∨
        ⟨.common_cgroup_delete user_cg, rc⟩ ∈
          remove_events env root_cg step_cg job_cg user_cg s) →
      (_remove_cg_subsystem env root_cg step_cg job_cg user_cg s).1 = SLURM_SUCCESS) ∧
    (∀ e ∈ remove_events env root_cg step_cg job_cg user_cg s,
      e.rc ≠ SLURM_SUCCESS →
      (e.call = .common_cgroup_move_process root_cg env.getpid ∨
        e.call = .xcgroup_lock root_cg ∨ e.call = .common_cgroup_delete step_cg) →
      (_remove_cg_subsystem env root_cg step_cg job_cg user_cg s).1 ≠ SLURM_SUCCESS ∧
      ((remove_events env root_cg step_cg job_cg user_cg s).filter
        (fun x => !is_release x.call)).getLast? = some e) ∧
    ((remove_events env root_cg step_cg job_cg user_cg s).filter
        (fun x => !is_release x.call) =
      (removal_outcomes env root_cg step_cg job_cg user_cg s).take
        (removal_attempts env root_cg step_cg job_cg s)) ∧
    (_remove_cg_subsystem env root_cg step_cg job_cg user_cg s).1 =
      removal_status env root_cg step_cg s ∧
    ((∀ e ∈ removal_outcomes env root_cg step_cg job_cg user_cg s,
        e.rc = SLURM_SUCCESS) →
      (remove_events env root_cg step_cg job_cg user_cg s).filter
          (fun x => !is_release x.call) =
        removal_outcomes env root_cg step_cg job_cg user_cg s ∧
      (_remove_cg_subsystem env root_cg step_cg job_cg user_cg s).1 = SLURM_SUCCESS) := by
  have hjs := hsj.symm
  have hus := hsu.symm
  have huj := hju.symm
  have hne := slurm_error_ne_success
  unfold remove_events _remove_cg_subsystem
  dsimp only
  split_ifs with h1 h3 h4 h5 h6
  all_goals
    simp only [ne_eq, prim_fst, prim_trace, destroy_trace, List.length_append,
      List.length_singleton, List.length_cons, List.length_nil, not_not] at *
    simp [new_events, is_release, removal_sequence, removal_outcomes, removal_attempts,
      removal_status, List.prefix_iff_eq_take, *]

/-- Witness of C5: the run on the memory handles in which the job node is
busy: the move, the wait, the lock and the deletions of the step and of the job
are made, that of the user is not, and the status is `SLURM_SUCCESS`. -/
theorem remove_cg_subsystem_order_witness :
    (cg_ref.step CG_MEMORY ≠ cg_ref.job CG_MEMORY ∧
      cg_ref.step CG_MEMORY ≠ cg_ref.user CG_MEMORY ∧
      cg_ref.job CG_MEMORY ≠ cg_ref.user CG_MEMORY) ∧
    (((remove_events env_job_busy (.root CG_MEMORY) (.step CG_MEMORY) (.job CG_MEMORY)
          (.user CG_MEMORY) init_state).map event.call).filter (fun c => !is_release c)
      <+: removal_sequence env_job_busy (.root CG_MEMORY) (.step CG_MEMORY)
          (.job CG_MEMORY) (.user CG_MEMORY)) ∧
    (_remove_cg_subsystem env_job_busy (.root CG_MEMORY) (.step CG_MEMORY)
        (.job CG_MEMORY) (.user CG_MEMORY) init_state).1 = SLURM_SUCCESS ∧
    (remove_events env_job_busy (.root CG_MEMORY) (.step CG_MEMORY) (.job CG_MEMORY)
        (.user CG_MEMORY) init_state).filter (fun x => !is_release x.call) =
      (removal_outcomes env_job_busy (.root CG_MEMORY) (.step CG_MEMORY) (.job CG_MEMORY)
        (.user CG_MEMORY) init_state).take 5 := by
  have h := remove_cg_subsystem_order env_job_busy (.root CG_MEMORY) (.step CG_MEMORY)
    (.job CG_MEMORY) (.user CG_MEMORY) init_state (by decide) (by decide) (by decide)
  have h5 : removal_attempts env_job_busy (.root CG_MEMORY) (.step CG_MEMORY)
      (.job CG_MEMORY) init_state = 5 := by decide
  refine ⟨⟨by decide, by decide, by decide⟩, h.1, ?_, ?_⟩
  · exact h.2.2.2.1 SLURM_ERROR (by decide) (Or.inl (by decide))
  · rw [← h5]
    exact h.2.2.2.2.2.1

/-- C6: in every run of `_remove_cg_subsystem` in which the lock on the root
node was taken with success, the root node is unlocked exactly once, by the last
call the function makes, after the lock was taken; this holds whatever the
deletions of the step, the job and the user return. -/
theorem remove_cg_subsystem_unlock_once (env : Env)
    (root_cg step_cg job_cg user_cg : cg_ref) (s : cg_state)
    (hlock : ⟨.xcgroup_lock root_cg, SLURM_SUCCESS⟩ ∈
      remove_events env root_cg step_cg job_cg user_cg s) :
    (remove_events env root_cg step_cg job_cg user_cg s).countP
        (fun e => e.call = .xcgroup_unlock root_cg) = 1 ∧
    (remove_events env root_cg step_cg job_cg user_cg s).getLast?.map event.call =
      some (.xcgroup_unlock root_cg) ∧
    ⟨.xcgroup_lock root_cg, SLURM_SUCCESS⟩ ∈
      (remove_events env root_cg step_cg job_cg user_cg s).dropLast := by
  unfold remove_events _remove_cg_subsystem at hlock ⊢
  dsimp only at hlock ⊢
  split_ifs at hlock ⊢ with h1 h3 h4 h5 h6
  · simp [new_events] at hlock
  · simp only [ne_eq, prim_fst, prim_trace, List.length_append, List.length_singleton,
      not_not] at h1 h3
    simp [new_events] at hlock
    exact absurd hlock.symm h3
  all_goals
    simp only [ne_eq, prim_fst, prim_trace, destroy_trace, List.length_append,
      List.length_singleton, List.length_cons, List.length_nil, not_not] at *
    simp [new_events, List.countP_cons, *]

/-- Witness of C6: the run on the memory handles in which the job node is busy. -/
theorem remove_cg_subsystem_unlock_once_witness :
    (⟨.xcgroup_lock (.root CG_MEMORY), SLURM_SUCCESS⟩ : event) ∈
      remove_events env_job_busy (.root CG_MEMORY) (.step CG_MEMORY) (.job CG_MEMORY)
        (.user CG_MEMORY) init_state ∧
    (remove_events env_job_busy (.root CG_MEMORY) (.step CG_MEMORY) (.job CG_MEMORY)
        (.user CG_MEMORY) init_state).countP
      (fun e => e.call = .xcgroup_unlock (.root CG_MEMORY)) = 1 :=
  ⟨by decide,
   (remove_cg_subsystem_unlock_once env_job_busy (.root CG_MEMORY) (.step CG_MEMORY)
      (.job CG_MEMORY) (.user CG_MEMORY) init_state (by decide)).1⟩

/-! ### `cgroup_p_step_destroy` and `cgroup_p_step_create` -/

theorem step_destroy_busy (env : Env) (sub : cgroup_ctl_type_t) (s : cg_state)
    (h1 : 1 < s.g_step_active_cnt sub) (h16 : s.g_step_active_cnt sub < 65536) :
    cgroup_p_step_destroy env sub s =
      (SLURM_SUCCESS,
       { s with
         g_step_active_cnt :=
           Function.update s.g_step_active_cnt sub (s.g_step_active_cnt sub - 1) }) := by
  have h0 : s.g_step_active_cnt sub ≠ 0 := by omega
  have hd : u16_dec (s.g_step_active_cnt sub) = s.g_step_active_cnt sub - 1 := by
    unfold u16_dec
    omega
  simp [cgroup_p_step_destroy, h0, h1, hd]

theorem step_destroy_n_busy (env : Env) (sub : cgroup_ctl_type_t) (k : Nat) :
    ∀ s : cg_state, k < s.g_step_active_cnt sub → s.g_step_active_cnt sub < 65536 →
      step_destroy_n env sub k s =
        (List.replicate k SLURM_SUCCESS,
         { s with
           g_step_active_cnt :=
             Function.update s.g_step_active_cnt sub (s.g_step_active_cnt sub - k) }) := by
  induction k with
  | zero =>
    intro s _ _
    simp [step_destroy_n]
  | succ k ih =>
    intro s hk h16
    have hb := step_destroy_busy env sub s (by omega) h16
    have hs := ih (cgroup_p_step_destroy env sub s).2
      (by rw [hb]; simp; omega) (by rw [hb]; simp; omega)
    simp only [step_destroy_n, hs]
    rw [hb]
    simp [List.replicate_succ, Nat.sub_sub, Nat.add_comm]

theorem remove_trace_head (env : Env) (root_cg step_cg job_cg user_cg : cg_ref)
    (s : cg_state) :
    ∃ rc rest, (_remove_cg_subsystem env root_cg step_cg job_cg user_cg s).2.trace =
      s.trace ++ ⟨.common_cgroup_move_process root_cg env.getpid, rc⟩ :: rest := by
  refine ⟨env.rc s.trace.length (.common_cgroup_move_process root_cg env.getpid), ?_⟩
  unfold _remove_cg_subsystem
  dsimp only
  split_ifs <;> simp

theorem step_destroy_custom_trace (env : Env) (sub : cgroup_ctl_type_t) (s : cg_state) :
    ∃ l, (step_destroy_custom env sub s).trace = s.trace ++ l := by
  unfold step_destroy_custom
  split_ifs
  · exact ⟨_, prim_trace _ _ _⟩
  · exact ⟨[], by simp⟩
  · exact ⟨[], by simp⟩

theorem step_destroy_last_trace (env : Env) (sub : cgroup_ctl_type_t) (s : cg_state)
    (hsub : sub < CG_CTL_CNT) (h1 : s.g_step_active_cnt sub = 1) :
    (cgroup_p_step_destroy env sub s).2.trace =
      (_remove_cg_subsystem env (.root sub) (.step sub) (.job sub) (.user sub)
        (step_destroy_custom env sub s)).2.trace := by
  have hsub' : ¬ CG_CTL_CNT ≤ sub := Nat.not_le.mpr hsub
  simp only [cgroup_p_step_destroy, h1, hsub']
  simp only [Nat.one_ne_zero, if_false, gt_iff_lt, Nat.lt_irrefl]
  split_ifs <;> rfl

/-- C1: let the active-reference count of a controller be `N ≥ 1`.  Each of
the first `N - 1` calls of `cgroup_p_step_destroy` returns `SLURM_SUCCESS` and
changes nothing but the count, which it lowers by one: after `k < N` calls the
count is `N - k`, no primitive has been called and the step path is what it
was.  The `N`-th call, made with the count at 1, is the one that runs
`_remove_cg_subsystem`: its primitive calls are those of
`_remove_cg_subsystem` (after the controller-specific action), starting with
the move of the own pid to the root node. -/
theorem step_destroy_refcount (env : Env) (sub : cgroup_ctl_type_t) (s : cg_state)
    (N k : Nat) (hsub : sub < CG_CTL_CNT) (hN : s.g_step_active_cnt sub = N)
    (hN1 : 1 ≤ N) (h16 : N < 65536) (hk : k < N) :
    (step_destroy_n env sub k s).1 = List.replicate k SLURM_SUCCESS ∧
    (step_destroy_n env sub k s).2 =
      { s with g_step_active_cnt := Function.update s.g_step_active_cnt sub (N - k) } ∧
    (step_destroy_n env sub k s).2.g_step_active_cnt sub = N - k ∧
    new_events s (step_destroy_n env sub k s).2 = [] ∧
    (step_destroy_n env sub k s).2.g_step_cgpath sub = s.g_step_cgpath sub ∧
    (step_destroy_n env sub (N - 1) s).2.g_step_active_cnt sub = 1 ∧
    (cgroup_p_step_destroy env sub (step_destroy_n env sub (N - 1) s).2).2.trace =
      (_remove_cg_subsystem env (.root sub) (.step sub) (.job sub) (.user sub)
        (step_destroy_custom env sub (step_destroy_n env sub (N - 1) s).2)).2.trace ∧
    ∃ rc, ⟨.common_cgroup_move_process (.root sub) env.getpid, rc⟩ ∈
      new_events s (cgroup_p_step_destroy env sub (step_destroy_n env sub (N - 1) s).2).2 := by
  subst hN
  have hk' := step_destroy_n_busy env sub k s hk h16
  have hl := step_destroy_n_busy env sub (s.g_step_active_cnt sub - 1) s (by omega) h16
  have hone : s.g_step_active_cnt sub - (s.g_step_active_cnt sub - 1) = 1 := by omega
  rw [hk', hl, hone]
  have hlast := step_destroy_last_trace env sub
    { s with g_step_active_cnt := Function.update s.g_step_active_cnt sub 1 } hsub
    (by simp)
  refine ⟨rfl, rfl, by simp, by simp [new_events], rfl, by simp, hlast, ?_⟩
  obtain ⟨l, hl'⟩ := step_destroy_custom_trace env sub
    { s with g_step_active_cnt := Function.update s.g_step_active_cnt sub 1 }
  obtain ⟨rc, rest, hr⟩ := remove_trace_head env (.root sub) (.step sub) (.job sub) (.user sub)
    (step_destroy_custom env sub
      { s with g_step_active_cnt := Function.update s.g_step_active_cnt sub 1 })
  refine ⟨rc, ?_⟩
  rw [new_events, hlast, hr, hl']
  simp

/-- Witness of C1: three consumers hold the memory controller; two calls
return success, leave the count at 1 and call no primitive. -/
theorem step_destroy_refcount_witness :
    (CG_MEMORY < CG_CTL_CNT ∧
      (state_with_count CG_MEMORY 3).g_step_active_cnt CG_MEMORY = 3 ∧
      1 ≤ 3 ∧ 3 < 65536 ∧ 2 < 3) ∧
    (step_destroy_n env_ok CG_MEMORY 2 (state_with_count CG_MEMORY 3)).1 =
      [SLURM_SUCCESS, SLURM_SUCCESS] ∧
    (step_destroy_n env_ok CG_MEMORY 2
      (state_with_count CG_MEMORY 3)).2.g_step_active_cnt CG_MEMORY = 1 ∧
    new_events (state_with_count CG_MEMORY 3)
      (step_destroy_n env_ok CG_MEMORY 2 (state_with_count CG_MEMORY 3)).2 = [] := by
  have h := step_destroy_refcount env_ok CG_MEMORY (state_with_count CG_MEMORY 3) 3 2
    (by decide) (by decide) (by decide) (by decide) (by decide)
  exact ⟨⟨by decide, by decide, by decide, by decide, by decide⟩, h.1, h.2.2.1, h.2.2.2.1⟩

/-- C2, at the failing input: the tracking controller, fresh after `init`
(count 0); the hierarchy is created and attaching the pid fails.  The count is
decremented twice, by `cgroup_p_step_destroy` and at `step_c_err`, and ends at
65535 instead of 0; from a count of 1 it ends at 0.  For the memory controller,
when the `memory.use_hierarchy` write fails and the step node cannot be deleted,
the count stays at 1 instead of 0. -/
theorem step_create_attach_failure_count :
    init_state.g_step_active_cnt CG_TRACK = 0 ∧
    (cgroup_p_step_create env_attach_fails CG_TRACK job0
      init_state).2.2.g_step_active_cnt CG_TRACK = 65535 ∧
    (cgroup_p_step_create env_attach_fails CG_TRACK job0
      (state_with_count CG_TRACK 1)).2.2.g_step_active_cnt CG_TRACK = 0 ∧
    (cgroup_p_step_create env_stuck CG_MEMORY job0
      init_state).2.2.g_step_active_cnt CG_MEMORY = 1 := by
  decide

/-- C3, at the failing input: the tracking controller; the hierarchy is created
and `common_cgroup_add_pids` on the job node returns `SLURM_ERROR`.
`cgroup_p_step_create` returns `SLURM_SUCCESS`. -/
theorem step_create_attach_failure_status :
    (⟨.common_cgroup_add_pids (.job CG_TRACK) [4242], SLURM_ERROR⟩ : event) ∈
      (cgroup_p_step_create env_attach_fails CG_TRACK job0 init_state).2.2.trace ∧
    (cgroup_p_step_create env_attach_fails CG_TRACK job0 init_state).1 = SLURM_SUCCESS := by
  decide

/-- C4 as stated fails: after `init` the count of the memory controller is 0,
and `cgroup_p_step_destroy` does not return a failure status. -/
theorem step_destroy_zero_count_counterexample :
    init_state.g_step_active_cnt CG_MEMORY = 0 ∧
    ¬ (cgroup_p_step_destroy env_ok CG_MEMORY init_state).1 ≠ SLURM_SUCCESS := by
  decide

/-- C4, amended: a call of `cgroup_p_step_destroy` for a controller whose
count is zero returns `SLURM_SUCCESS`, calls no primitive and leaves the state
as it was; the count stays at zero. -/
theorem step_destroy_zero_count (env : Env) (sub : cgroup_ctl_type_t) (s : cg_state)
    (h0 : s.g_step_active_cnt sub = 0) :
    cgroup_p_step_destroy env sub s = (SLURM_SUCCESS, s) := by
  simp [cgroup_p_step_destroy, h0]

/-- Witness of C4, amended: the devices controller after `init`. -/
theorem step_destroy_zero_count_witness :
    init_state.g_step_active_cnt CG_DEVICES = 0 ∧
    cgroup_p_step_destroy env_ok CG_DEVICES init_state = (SLURM_SUCCESS, init_state) :=
  ⟨by decide, step_destroy_zero_count env_ok CG_DEVICES init_state (by decide)⟩

/-! ### Limit controller -/

theorem status_sum_two (a b : Int)
    (ha : a = SLURM_SUCCESS ∨ a = SLURM_ERROR) (hb : b = SLURM_SUCCESS ∨ b = SLURM_ERROR) :
    a + b = SLURM_SUCCESS ↔ a = SLURM_SUCCESS ∧ b = SLURM_SUCCESS := by
  unfold SLURM_SUCCESS SLURM_ERROR at *
  omega

theorem status_sum_three (a b c : Int)
    (ha : a = SLURM_SUCCESS ∨ a = SLURM_ERROR) (hb : b = SLURM_SUCCESS ∨ b = SLURM_ERROR)
    (hc : c = SLURM_SUCCESS ∨ c = SLURM_ERROR) :
    a + b + c = SLURM_SUCCESS ↔
      a = SLURM_SUCCESS ∧ b = SLURM_SUCCESS ∧ c = SLURM_SUCCESS := by
  unfold SLURM_SUCCESS SLURM_ERROR at *
  omega

theorem status_sum_four (a b c d : Int)
    (ha : a = SLURM_SUCCESS ∨ a = SLURM_ERROR) (hb : b = SLURM_SUCCESS ∨ b = SLURM_ERROR)
    (hc : c = SLURM_SUCCESS ∨ c = SLURM_ERROR) (hd : d = SLURM_SUCCESS ∨ d = SLURM_ERROR) :
    a + b + c + d = SLURM_SUCCESS ↔
      a = SLURM_SUCCESS ∧ b = SLURM_SUCCESS ∧ c = SLURM_SUCCESS ∧ d = SLURM_SUCCESS := by
  unfold SLURM_SUCCESS SLURM_ERROR at *
  omega

theorem constrain_set_memory_calls (env : Env) (cg : cg_ref) (l : cgroup_limits_t)
    (s : cg_state) :
    (new_events s (constrain_set_memory env cg l s).2).map event.call =
      memory_writes cg l := by
  unfold constrain_set_memory memory_writes
  dsimp only
  by_cases hk : l.kmem_limit_in_bytes = NO_VAL64 <;>
    by_cases hm : l.memsw_limit_in_bytes = NO_VAL64 <;>
    simp [hk, hm, new_events]

theorem constrain_set_memory_status (env : Env) (cg : cg_ref) (l : cgroup_limits_t)
    (s : cg_state)
    (hbin : ∀ k c, env.rc k c = SLURM_SUCCESS ∨ env.rc k c = SLURM_ERROR) :
    (constrain_set_memory env cg l s).1 = SLURM_SUCCESS ↔
      ∀ e ∈ new_events s (constrain_set_memory env cg l s).2, e.rc = SLURM_SUCCESS := by
  unfold constrain_set_memory
  dsimp only
  by_cases hk : l.kmem_limit_in_bytes = NO_VAL64 <;>
    by_cases hm : l.memsw_limit_in_bytes = NO_VAL64
  · simp [hk, hm, new_events]
    exact status_sum_two _ _ (hbin _ _) (hbin _ _)
  · simp [hk, hm, new_events]
    exact status_sum_three _ _ _ (hbin _ _) (hbin _ _) (hbin _ _)
  · simp [hk, hm, new_events]
    exact status_sum_three _ _ _ (hbin _ _) (hbin _ _) (hbin _ _)
  · simp [hk, hm, new_events]
    rw [status_sum_four _ _ _ _ (hbin _ _) (hbin _ _) (hbin _ _) (hbin _ _)]

/-- C7: for the memory controller at job and at step level, when every
primitive returns `SLURM_SUCCESS` or `SLURM_ERROR`: the writes that are made are
exactly the applicable ones (hard limit, soft limit, kernel-memory limit when
set, memory+swap limit when set), in that order and whatever the earlier writes
returned, and the call returns `SLURM_SUCCESS` if and only if every write that
was made returned `SLURM_SUCCESS`. -/
theorem memory_constrain_set_all_writes (env : Env) (l : cgroup_limits_t) (s : cg_state)
    (hbin : ∀ k c, env.rc k c = SLURM_SUCCESS ∨ env.rc k c = SLURM_ERROR) :
    ((new_events s (cgroup_p_job_constrain_set env CG_MEMORY (some l) s).2).map event.call =
        memory_writes (.job CG_MEMORY) l ∧
      ((cgroup_p_job_constrain_set env CG_MEMORY (some l) s).1 = SLURM_SUCCESS ↔
        ∀ e ∈ new_events s (cgroup_p_job_constrain_set env CG_MEMORY (some l) s).2,
          e.rc = SLURM_SUCCESS)) ∧
    ((new_events s (cgroup_p_step_constrain_set env CG_MEMORY (some l) s).2).map event.call =
        memory_writes (.step CG_MEMORY) l ∧
      ((cgroup_p_step_constrain_set env CG_MEMORY (some l) s).1 = SLURM_SUCCESS ↔
        ∀ e ∈ new_events s (cgroup_p_step_constrain_set env CG_MEMORY (some l) s).2,
          e.rc = SLURM_SUCCESS)) := by
  have hj : cgroup_p_job_constrain_set env CG_MEMORY (some l) s =
      constrain_set_memory env (.job CG_MEMORY) l s := by
    simp [cgroup_p_job_constrain_set, CG_MEMORY, CG_TRACK, CG_CPUS]
  have hs : cgroup_p_step_constrain_set env CG_MEMORY (some l) s =
      constrain_set_memory env (.step CG_MEMORY) l s := by
    simp [cgroup_p_step_constrain_set, CG_MEMORY, CG_TRACK, CG_CPUS]
  rw [hj, hs]
  exact ⟨⟨constrain_set_memory_calls env _ l s, constrain_set_memory_status env _ l s hbin⟩,
    ⟨constrain_set_memory_calls env _ l s, constrain_set_memory_status env _ l s hbin⟩⟩

/-- Witness of C7: every 64-bit write fails; both writes of the limits
`limits_hard_only` are made at job level and the call does not return
`SLURM_SUCCESS`. -/
theorem memory_constrain_set_all_writes_witness :
    (∀ k c, env_write_fails.rc k c = SLURM_SUCCESS ∨ env_write_fails.rc k c = SLURM_ERROR) ∧
    (new_events init_state
        (cgroup_p_job_constrain_set env_write_fails CG_MEMORY (some limits_hard_only)
          init_state).2).map event.call =
      memory_writes (.job CG_MEMORY) limits_hard_only ∧
    ((cgroup_p_job_constrain_set env_write_fails CG_MEMORY (some limits_hard_only)
        init_state).1 = SLURM_SUCCESS ↔
      ∀ e ∈ new_events init_state
          (cgroup_p_job_constrain_set env_write_fails CG_MEMORY (some limits_hard_only)
            init_state).2,
        e.rc = SLURM_SUCCESS) := by
  have hbin : ∀ k c,
      env_write_fails.rc k c = SLURM_SUCCESS ∨ env_write_fails.rc k c = SLURM_ERROR := by
    intro k c
    cases c <;> simp [env_write_fails]
  have h := memory_constrain_set_all_writes env_write_fails limits_hard_only init_state hbin
  exact ⟨hbin, h.1.1, h.1.2⟩

/-- C8, at the failing input: the memory controller at system level, the write
of `memory.limit_in_bytes` returns `SLURM_ERROR`.  The write is the only call
made and `cgroup_p_system_constrain_set` returns `SLURM_SUCCESS`. -/
theorem system_constrain_set_memory_status :
    new_events init_state
        (cgroup_p_system_constrain_set env_write_fails CG_MEMORY (some limits_hard_only)
          init_state).2 =
      [⟨.common_cgroup_set_uint64_param (.sys CG_MEMORY) "memory.limit_in_bytes" 1073741824,
        SLURM_ERROR⟩] ∧
    (cgroup_p_system_constrain_set env_write_fails CG_MEMORY (some limits_hard_only)
      init_state).1 = SLURM_SUCCESS := by
  decide

/-- C9 as stated fails: with only the hard limit set, the step-level and the
job-level call for the memory controller write `memory.soft_limit_in_bytes`
too. -/
theorem memory_hard_only_counterexample :
    limits_hard_only.soft_limit_in_bytes = NO_VAL64 ∧
    limits_hard_only.kmem_limit_in_bytes = NO_VAL64 ∧
    limits_hard_only.memsw_limit_in_bytes = NO_VAL64 ∧
    some "memory.soft_limit_in_bytes" ∈
      ((new_events init_state
        (cgroup_p_step_constrain_set env_ok CG_MEMORY (some limits_hard_only)
          init_state).2).map (fun e => written_file e.call)) ∧
    some "memory.soft_limit_in_bytes" ∈
      ((new_events init_state
        (cgroup_p_job_constrain_set env_ok CG_MEMORY (some limits_hard_only)
          init_state).2).map (fun e => written_file e.call)) := by
  decide

/-- C9, amended: for the memory controller at job and step level, when the
soft, the kernel-memory and the memory+swap limit are `NO_VAL64`, exactly two
writes are made: `memory.limit_in_bytes` receives the hard limit and
`memory.soft_limit_in_bytes` receives `NO_VAL64`;
`memory.kmem.limit_in_bytes` and `memory.memsw.limit_in_bytes` receive no
write. -/
theorem memory_hard_only_writes (env : Env) (l : cgroup_limits_t) (s : cg_state)
    (hsoft : l.soft_limit_in_bytes = NO_VAL64) (hkmem : l.kmem_limit_in_bytes = NO_VAL64)
    (hmemsw : l.memsw_limit_in_bytes = NO_VAL64) :
    (new_events s (cgroup_p_job_constrain_set env CG_MEMORY (some l) s).2).map event.call =
      [.common_cgroup_set_uint64_param (.job CG_MEMORY) "memory.limit_in_bytes"
          l.limit_in_bytes,
       .common_cgroup_set_uint64_param (.job CG_MEMORY) "memory.soft_limit_in_bytes"
          NO_VAL64] ∧
    (new_events s (cgroup_p_step_constrain_set env CG_MEMORY (some l) s).2).map event.call =
      [.common_cgroup_set_uint64_param (.step CG_MEMORY) "memory.limit_in_bytes"
          l.limit_in_bytes,
       .common_cgroup_set_uint64_param (.step CG_MEMORY) "memory.soft_limit_in_bytes"
          NO_VAL64] ∧
    (∀ e ∈ new_events s (cgroup_p_job_constrain_set env CG_MEMORY (some l) s).2 ++
        new_events s (cgroup_p_step_constrain_set env CG_MEMORY (some l) s).2,
      written_file e.call ≠ some "memory.kmem.limit_in_bytes" ∧
      written_file e.call ≠ some "memory.memsw.limit_in_bytes") := by
  have hj : cgroup_p_job_constrain_set env CG_MEMORY (some l) s =
      constrain_set_memory env (.job CG_MEMORY) l s := by
    simp [cgroup_p_job_constrain_set, CG_MEMORY, CG_TRACK, CG_CPUS]
  have hs : cgroup_p_step_constrain_set env CG_MEMORY (some l) s =
      constrain_set_memory env (.step CG_MEMORY) l s := by
    simp [cgroup_p_step_constrain_set, CG_MEMORY, CG_TRACK, CG_CPUS]
  rw [hj, hs]
  unfold constrain_set_memory
  simp [hsoft, hkmem, hmemsw, new_events, written_file]

/-- Witness of C9, amended: the limits `limits_hard_only` at job level. -/
theorem memory_hard_only_writes_witness :
    (limits_hard_only.soft_limit_in_bytes = NO_VAL64 ∧
      limits_hard_only.kmem_limit_in_bytes = NO_VAL64 ∧
      limits_hard_only.memsw_limit_in_bytes = NO_VAL64) ∧
    (new_events init_state
        (cgroup_p_job_constrain_set env_ok CG_MEMORY (some limits_hard_only)
          init_state).2).map event.call =
      [.common_cgroup_set_uint64_param (.job CG_MEMORY) "memory.limit_in_bytes"
          limits_hard_only.limit_in_bytes,
       .common_cgroup_set_uint64_param (.job CG_MEMORY) "memory.soft_limit_in_bytes"
          NO_VAL64] :=
  ⟨⟨rfl, rfl, rfl⟩,
   (memory_hard_only_writes env_ok limits_hard_only init_state rfl rfl rfl).1⟩

/-- C10: for the cpu-accounting controller and limits that are not `NULL`, each
of the five limit-setting operations (root, system, user, job, step) returns
`SLURM_ERROR`, calls no primitive (so writes no parameter) and leaves the state
as it was. -/
theorem cpuacct_constrain_set_unsupported (env : Env) (l : cgroup_limits_t) (s : cg_state) :
    cgroup_p_root_constrain_set env CG_CPUACCT (some l) s = (SLURM_ERROR, s) ∧
    cgroup_p_system_constrain_set env CG_CPUACCT (some l) s = (SLURM_ERROR, s) ∧
    cgroup_p_user_constrain_set env CG_CPUACCT (some l) s = (SLURM_ERROR, s) ∧
    cgroup_p_job_constrain_set env CG_CPUACCT (some l) s = (SLURM_ERROR, s) ∧
    cgroup_p_step_constrain_set env CG_CPUACCT (some l) s = (SLURM_ERROR, s) := by
  simp [cgroup_p_root_constrain_set, cgroup_p_system_constrain_set,
    cgroup_p_user_constrain_set, cgroup_p_job_constrain_set, cgroup_p_step_constrain_set,
    CG_CPUACCT, CG_TRACK, CG_CPUS, CG_MEMORY, CG_DEVICES]

/-! ### `cgroup_p_root_constrain_get` -/

theorem set_last_eq_dropLast {α : Type} (x : α) :
    ∀ l : List α, 0 < l.length → l.set (l.length - 1) x = l.dropLast ++ [x]
  | [], h => absurd h (by simp)
  | [a], _ => by simp
  | a :: b :: l, _ => by
    have ih := set_last_eq_dropLast x (b :: l) (by simp)
    simp only [List.length_cons, Nat.add_sub_cancel] at ih ⊢
    simp [List.set_cons_succ, ih]

/-- C11: for the cpuset controller, when every read returns `SLURM_SUCCESS` or
`SLURM_ERROR`, `cgroup_p_root_constrain_get` reads `cpuset.cpus` and then
`cpuset.mems` from the root cgroup and returns `NULL` if and only if one of the
two reads failed.  When both succeed it returns limits whose sizes are the
sizes the reads reported and whose masks are the buffers read with the byte at
index `size - 1` set to the terminator; for a read that reports the length of
its buffer, that is the string read with its last byte replaced. -/
theorem root_constrain_get_cpuset (env : Env) (s : cg_state)
    (hbin : ∀ k c, env.rc k c = SLURM_SUCCESS ∨ env.rc k c = SLURM_ERROR) :
    new_events s (cgroup_p_root_constrain_get env CG_CPUS s).2 =
      [⟨root_cpus_read, env.rc s.trace.length root_cpus_read⟩,
       ⟨root_mems_read, env.rc (s.trace.length + 1) root_mems_read⟩] ∧
    ((cgroup_p_root_constrain_get env CG_CPUS s).1 = none ↔
      (env.rc s.trace.length root_cpus_read ≠ SLURM_SUCCESS ∨
        env.rc (s.trace.length + 1) root_mems_read ≠ SLURM_SUCCESS)) ∧
    (env.rc s.trace.length root_cpus_read = SLURM_SUCCESS →
      env.rc (s.trace.length + 1) root_mems_read = SLURM_SUCCESS →
      ∃ l, (cgroup_p_root_constrain_get env CG_CPUS s).1 = some l ∧
        l.cores_size = env.size s.trace.length root_cpus_read ∧
        l.mems_size = env.size (s.trace.length + 1) root_mems_read ∧
        l.allow_cores =
          (env.str s.trace.length root_cpus_read).map (fun v =>
            if 0 < env.size s.trace.length root_cpus_read then
              String.mk (v.data.set (env.size s.trace.length root_cpus_read - 1) NUL)
            else v) ∧
        l.allow_mems =
          (env.str (s.trace.length + 1) root_mems_read).map (fun v =>
            if 0 < env.size (s.trace.length + 1) root_mems_read then
              String.mk (v.data.set (env.size (s.trace.length + 1) root_mems_read - 1) NUL)
            else v) ∧
        (∀ v, env.str s.trace.length root_cpus_read = some v →
          env.size s.trace.length root_cpus_read = v.data.length → 0 < v.data.length →
          l.allow_cores = some (replace_last v)) ∧
        (∀ v, env.str (s.trace.length + 1) root_mems_read = some v →
          env.size (s.trace.length + 1) root_mems_read = v.data.length → 0 < v.data.length →
          l.allow_mems = some (replace_last v))) := by
  have h1 := hbin s.trace.length root_cpus_read
  have h2 := hbin (s.trace.length + 1) root_mems_read
  have hsum := status_sum_two _ _ h1 h2
  unfold root_cpus_read root_mems_read at *
  have hne : CG_CPUS ≠ CG_TRACK := by decide
  refine ⟨?_, ?_, ?_⟩
  · simp only [cgroup_p_root_constrain_get, hne, if_false, if_true]
    split_ifs <;> simp [new_events]
  · simp only [cgroup_p_root_constrain_get, hne, if_false, if_true]
    simp only [prim_fst, prim_trace, List.length_append, List.length_singleton]
    split_ifs with h
    · simp only [true_iff]
      by_contra hc
      push_neg at hc
      exact h (hsum.mpr hc)
    · simp only [ne_eq, not_not] at h
      have := hsum.mp h
      simp [this.1, this.2]
  · intro e1 e2
    have h0 := hsum.mpr ⟨e1, e2⟩
    simp only [cgroup_p_root_constrain_get, hne, if_false, if_true]
    simp only [prim_fst, prim_trace, List.length_append, List.length_singleton]
    rw [if_neg (by simpa using h0)]
    refine ⟨_, rfl, rfl, rfl, ?_, ?_, ?_, ?_⟩
    · cases env.str s.trace.length
        (.common_cgroup_get_param (.root CG_CPUS) "cpuset.cpus")
      · simp [terminate_at]
      · simp only [terminate_at, gt_iff_lt, Option.map_some']
        split_ifs <;> rfl
    · cases env.str (s.trace.length + 1)
        (.common_cgroup_get_param (.root CG_CPUS) "cpuset.mems")
      · simp [terminate_at]
      · simp only [terminate_at, gt_iff_lt, Option.map_some']
        split_ifs <;> rfl
    · intro v hv hsz hpos
      have hset := set_last_eq_dropLast NUL v.data hpos
      simp only [terminate_at, hv, hsz, replace_last, Option.map_some', hpos, gt_iff_lt,
        if_true, hset]
    · intro v hv hsz hpos
      have hset := set_last_eq_dropLast NUL v.data hpos
      simp only [terminate_at, hv, hsz, replace_last, Option.map_some', hpos, gt_iff_lt,
        if_true, hset]

/-- Witness of C11: both reads fail and the result is `NULL`. -/
theorem root_constrain_get_cpuset_witness :
    (∀ k c, env_read_fails.rc k c = SLURM_SUCCESS ∨ env_read_fails.rc k c = SLURM_ERROR) ∧
    ((cgroup_p_root_constrain_get env_read_fails CG_CPUS init_state).1 = none ↔
      (env_read_fails.rc init_state.trace.length root_cpus_read ≠ SLURM_SUCCESS ∨
        env_read_fails.rc (init_state.trace.length + 1) root_mems_read ≠ SLURM_SUCCESS)) := by
  have hbin : ∀ k c,
      env_read_fails.rc k c = SLURM_SUCCESS ∨ env_read_fails.rc k c = SLURM_ERROR := by
    intro k c
    cases c <;> simp [env_read_fails]
  exact ⟨hbin, (root_constrain_get_cpuset env_read_fails init_state hbin).2.1⟩

/-! ### `_cpuset_create` -/

@[simp] theorem prim_str_trace (env : Env) (c : prim_call) (s : cg_state) :
    (prim_str env c s).2.trace =
      s.trace ++
        [⟨c, if (env.str s.trace.length c).isSome then SLURM_SUCCESS else SLURM_ERROR⟩] :=
  rfl

@[simp] theorem create_hierarchy_fst (env : Env) (sub : cgroup_ctl_type_t) (s : cg_state) :
    (xcgroup_create_hierarchy env sub s).1 =
      env.rc s.trace.length (.xcgroup_create_hierarchy sub) := rfl

theorem find_task_none_iff (l : List task_cg_info_t) (taskid : Nat) :
    list_find_first l _find_task_cg_info taskid = none ↔ ∀ t ∈ l, t.taskid ≠ taskid := by
  unfold list_find_first _find_task_cg_info
  rw [List.find?_eq_none]
  constructor
  · intro h t ht
    have := h t ht
    by_contra hc
    simp [hc] at this
  · intro h t ht
    simp [h t ht]

theorem find_task_some (l : List task_cg_info_t) (taskid : Nat) (t : task_cg_info_t)
    (h : list_find_first l _find_task_cg_info taskid = some t) :
    t ∈ l ∧ t.taskid = taskid := by
  unfold list_find_first _find_task_cg_info at h
  refine ⟨List.mem_of_find?_eq_some h, ?_⟩
  have := List.find?_some h
  by_contra hc
  simp [hc] at this

theorem handle_task_lists (env : Env) (sub : cgroup_ctl_type_t) (pid : Nat)
    (job : stepd_step_rec_t) (taskid : Nat) (s : cg_state) (a : acct_state) :
    (_handle_task_cgroup env sub pid job taskid s a).2.2.g_task_acct_list =
        a.g_task_acct_list ∨
    ((∀ t ∈ a.g_task_acct_list sub, t.taskid ≠ taskid) ∧
      env.rc s.trace.length
        (.common_cgroup_create sub (.task sub taskid)
          (s.g_step_cgpath sub ++ "/task_" ++ toString taskid) job.uid job.gid) =
        SLURM_SUCCESS ∧
      env.rc (s.trace.length + 1) (.common_cgroup_instantiate (.task sub taskid)) =
        SLURM_SUCCESS ∧
      (_handle_task_cgroup env sub pid job taskid s a).2.2 =
        { a with
          g_task_acct_list :=
            Function.update a.g_task_acct_list sub
              (a.g_task_acct_list sub ++ [⟨.task sub taskid, taskid⟩]) }) := by
  unfold _handle_task_cgroup
  dsimp only
  cases hf : list_find_first (a.g_task_acct_list sub) _find_task_cg_info taskid with
  | some t =>
    left
    simp only [Option.isNone_some, Bool.false_eq_true, if_false, xfree_task_cg_info]
    split_ifs <;> rfl
  | none =>
    have hnone := (find_task_none_iff _ _).mp hf
    simp only [Option.getD_none, Option.isNone_none, if_true, prim_fst, prim_trace,
      List.length_append, List.length_singleton, xfree_task_cg_info]
    split_ifs with h1 h2
    · left; rfl
    · left; rfl
    · right
      simp only [ne_eq, not_not] at h1 h2
      exact ⟨hnone, h1, h2, rfl⟩

theorem handle_task_new (env : Env) (sub : cgroup_ctl_type_t) (pid : Nat)
    (job : stepd_step_rec_t) (taskid : Nat) (s : cg_state) (a : acct_state)
    (habs : ∀ t ∈ a.g_task_acct_list sub, t.taskid ≠ taskid)
    (h1 : env.rc s.trace.length
        (.common_cgroup_create sub (.task sub taskid)
          (s.g_step_cgpath sub ++ "/task_" ++ toString taskid) job.uid job.gid) =
        SLURM_SUCCESS)
    (h2 : env.rc (s.trace.length + 1) (.common_cgroup_instantiate (.task sub taskid)) =
        SLURM_SUCCESS) :
    (_handle_task_cgroup env sub pid job taskid s a).2.2 =
      { a with
        g_task_acct_list :=
          Function.update a.g_task_acct_list sub
            (a.g_task_acct_list sub ++ [⟨.task sub taskid, taskid⟩]) } := by
  have hf := (find_task_none_iff _ _).mpr habs
  unfold _handle_task_cgroup
  dsimp only
  simp only [hf, Option.getD_none, Option.isNone_none, if_true, prim_fst, prim_trace,
    List.length_append, List.length_singleton, h1, h2, ne_eq, not_true_eq_false, if_false]

/-- A call of `_handle_task_cgroup` for an id that is not in the list of its
controller and for which the creation or the instantiation fails leaves the
accounting variables as they are: the record it releases is its own. -/
theorem handle_task_new_fails (env : Env) (sub : cgroup_ctl_type_t) (pid : Nat)
    (job : stepd_step_rec_t) (taskid : Nat) (s : cg_state) (a : acct_state)
    (habs : ∀ t ∈ a.g_task_acct_list sub, t.taskid ≠ taskid)
    (h : ¬ (env.rc s.trace.length
        (.common_cgroup_create sub (.task sub taskid)
          (s.g_step_cgpath sub ++ "/task_" ++ toString taskid) job.uid job.gid) =
        SLURM_SUCCESS ∧
      env.rc (s.trace.length + 1) (.common_cgroup_instantiate (.task sub taskid)) =
        SLURM_SUCCESS)) :
    (_handle_task_cgroup env sub pid job taskid s a).2.2 = a := by
  have hf := (find_task_none_iff _ _).mpr habs
  unfold _handle_task_cgroup
  dsimp only
  simp only [hf, Option.getD_none, Option.isNone_none, if_true, prim_fst, prim_trace,
    List.length_append, List.length_singleton, xfree_task_cg_info]
  split_ifs with h1 h2
  · rfl
  · rfl
  · simp only [ne_eq, not_not] at h1 h2
    exact absurd ⟨h1, h2⟩ h

/-- A call of `_handle_task_cgroup` for an id that is in the list of its
controller: the list keeps its records; when the creation and the instantiation
succeed the accounting variables are as before, and when one of them fails the
record that was found is released while the list still links it. -/
theorem handle_task_found (env : Env) (sub : cgroup_ctl_type_t) (pid : Nat)
    (job : stepd_step_rec_t) (taskid : Nat) (s : cg_state) (a : acct_state)
    (t : task_cg_info_t)
    (hf : list_find_first (a.g_task_acct_list sub) _find_task_cg_info taskid = some t) :
    ((env.rc s.trace.length
          (.common_cgroup_create sub t.task_cg
            (s.g_step_cgpath sub ++ "/task_" ++ toString taskid) job.uid job.gid) =
          SLURM_SUCCESS ∧
        env.rc (s.trace.length + 1) (.common_cgroup_instantiate t.task_cg) =
          SLURM_SUCCESS) →
      (_handle_task_cgroup env sub pid job taskid s a).2.2 = a) ∧
    (¬ (env.rc s.trace.length
          (.common_cgroup_create sub t.task_cg
            (s.g_step_cgpath sub ++ "/task_" ++ toString taskid) job.uid job.gid) =
          SLURM_SUCCESS ∧
        env.rc (s.trace.length + 1) (.common_cgroup_instantiate t.task_cg) =
          SLURM_SUCCESS) →
      (_handle_task_cgroup env sub pid job taskid s a).1 = SLURM_ERROR ∧
      (_handle_task_cgroup env sub pid job taskid s a).2.2 =
        { a with freed_in_list := a.freed_in_list ++ [(sub, t)] }) := by
  unfold _handle_task_cgroup
  dsimp only
  simp only [hf, Option.getD_some, Option.isNone_some, Bool.false_eq_true, if_false,
    prim_fst, prim_trace, List.length_append, List.length_singleton, xfree_task_cg_info]
  constructor
  · intro h
    rw [if_neg (not_not.mpr h.1), if_neg (not_not.mpr h.2)]
  · intro h
    split_ifs with h1 h2
    · exact ⟨rfl, rfl⟩
    · exact ⟨rfl, rfl⟩
    · simp only [ne_eq, not_not] at h1 h2
      exact absurd ⟨h1, h2⟩ h

theorem handle_task_nodup (env : Env) (sub : cgroup_ctl_type_t) (pid : Nat)
    (job : stepd_step_rec_t) (taskid : Nat) (s : cg_state) (a : acct_state)
    (hinv : ∀ c, ((a.g_task_acct_list c).map task_cg_info_t.taskid).Nodup) :
    ∀ c, (((_handle_task_cgroup env sub pid job taskid s a).2.2.g_task_acct_list c).map
      task_cg_info_t.taskid).Nodup := by
  intro c
  rcases handle_task_lists env sub pid job taskid s a with h' | ⟨h1, _, _, h4⟩
  · rw [h']
    exact hinv c
  · rw [h4]
    by_cases hc : c = sub
    · subst hc
      simp only [Function.update_same, List.map_append, List.map_cons, List.map_nil]
      rw [List.nodup_append]
      refine ⟨hinv c, List.nodup_singleton _, ?_⟩
      intro x hx hx'
      rw [List.mem_singleton] at hx'
      obtain ⟨t, ht, hxt⟩ := List.mem_map.mp hx
      exact h1 t ht (hxt.trans hx')
    · simp only [Function.update_noteq hc]
      exact hinv c

theorem addto_lists (env : Env) (pid : Nat) (job : stepd_step_rec_t) (taskid : Nat)
    (s : cg_state) (a : acct_state) :
    (cgroup_p_task_addto_accounting env pid job taskid s a).2.2.g_task_acct_list =
        a.g_task_acct_list ∨
    ∃ s1 s2 a1, a1.g_task_acct_list = a.g_task_acct_list ∧
      (cgroup_p_task_addto_accounting env pid job taskid s a).2.2 =
        (_handle_task_cgroup env CG_MEMORY pid job taskid s2
          (_handle_task_cgroup env CG_CPUACCT pid job taskid s1 a1).2.2).2.2 := by
  have ha1 : (if taskid > a.g_max_task_id then { a with g_max_task_id := taskid }
      else a).g_task_acct_list = a.g_task_acct_list := by
    split_ifs <;> rfl
  unfold cgroup_p_task_addto_accounting
  dsimp only
  by_cases h1 : (xcgroup_create_hierarchy env CG_CPUACCT s).1 = SLURM_SUCCESS
  · by_cases h2 : (xcgroup_create_hierarchy env CG_MEMORY
        (xcgroup_create_hierarchy env CG_CPUACCT s).2).1 = SLURM_SUCCESS
    · right
      rw [if_neg (not_not.mpr h1), if_neg (not_not.mpr h2)]
      exact ⟨(xcgroup_create_hierarchy env CG_MEMORY
          (xcgroup_create_hierarchy env CG_CPUACCT s).2).2,
        (_handle_task_cgroup env CG_CPUACCT pid job taskid
          (xcgroup_create_hierarchy env CG_MEMORY
            (xcgroup_create_hierarchy env CG_CPUACCT s).2).2
          (if taskid > a.g_max_task_id then { a with g_max_task_id := taskid } else a)).2.1,
        (if taskid > a.g_max_task_id then { a with g_max_task_id := taskid } else a),
        ha1, rfl⟩
    · left
      rw [if_neg (not_not.mpr h1), if_pos h2]
      exact ha1
  · left
    rw [if_pos h1]
    exact ha1

theorem handle_task_keep (env : Env) (sub : cgroup_ctl_type_t) (pid : Nat)
    (job : stepd_step_rec_t) (taskid : Nat) (s : cg_state) (a : acct_state)
    (c : cgroup_ctl_type_t) (h : ∃ t ∈ a.g_task_acct_list c, t.taskid = taskid) :
    (_handle_task_cgroup env sub pid job taskid s a).2.2.g_task_acct_list c =
      a.g_task_acct_list c := by
  rcases handle_task_lists env sub pid job taskid s a with h' | ⟨h1, _, _, h4⟩
  · rw [h']
  · rw [h4]
    by_cases hc : c = sub
    · subst hc
      obtain ⟨t, ht, htid⟩ := h
      exact absurd htid (h1 t ht)
    · simp only [Function.update_noteq hc]

theorem acct_step_nodup (env : Env) (job : stepd_step_rec_t) (c : acct_call)
    (st : cg_state × acct_state)
    (hinv : ∀ sub, ((st.2.g_task_acct_list sub).map task_cg_info_t.taskid).Nodup) :
    ∀ sub, (((acct_step env job c st).2.g_task_acct_list sub).map
      task_cg_info_t.taskid).Nodup := by
  cases c with
  | handle sub pid taskid => exact handle_task_nodup env sub pid job taskid st.1 st.2 hinv
  | addto pid taskid =>
    intro sub
    simp only [acct_step]
    rcases addto_lists env pid job taskid st.1 st.2 with h' | ⟨s1, s2, a1, ha1, h'⟩
    · rw [h']
      exact hinv sub
    · rw [h']
      exact handle_task_nodup env CG_MEMORY pid job taskid s2 _
        (handle_task_nodup env CG_CPUACCT pid job taskid s1 a1 (by rw [ha1]; exact hinv)) sub

theorem acct_run_nodup (env : Env) (job : stepd_step_rec_t) (calls : List acct_call) :
    ∀ st : cg_state × acct_state,
      (∀ sub, ((st.2.g_task_acct_list sub).map task_cg_info_t.taskid).Nodup) →
      ∀ sub, (((acct_run env job calls st).2.g_task_acct_list sub).map
        task_cg_info_t.taskid).Nodup := by
  induction calls with
  | nil => intro st h; exact h
  | cons c cs ih =>
    intro st h
    exact ih (acct_step env job c st) (acct_step_nodup env job c st h)

/-- C20, at the failing input: task 3 is added to the memory collection by a
first call of `_handle_task_cgroup`; every record of the collections is live.
A second call for task 3 finds the record in the collection;
`common_cgroup_create` fails, the call returns `SLURM_ERROR`, and the record
that was found is released while the collection still links it: the entry of
the collection for task 3 is no longer a record.  The same holds when it is
`common_cgroup_instantiate` that fails in the second call. -/
theorem handle_task_frees_listed_record :
    ((acct_run env_recreate_fails job0 [.handle CG_MEMORY 4243 3]
        (init_state, acct_empty)).2.g_task_acct_list CG_MEMORY = [⟨.task CG_MEMORY 3, 3⟩] ∧
      (acct_run env_recreate_fails job0 [.handle CG_MEMORY 4243 3]
        (init_state, acct_empty)).2.freed_in_list = []) ∧
    ((_handle_task_cgroup env_recreate_fails CG_MEMORY 4243 job0 3
        (acct_run env_recreate_fails job0 [.handle CG_MEMORY 4243 3]
          (init_state, acct_empty)).1
        (acct_run env_recreate_fails job0 [.handle CG_MEMORY 4243 3]
          (init_state, acct_empty)).2).1 = SLURM_ERROR ∧
      (acct_run env_recreate_fails job0
        [.handle CG_MEMORY 4243 3, .handle CG_MEMORY 4243 3]
        (init_state, acct_empty)).2.g_task_acct_list CG_MEMORY = [⟨.task CG_MEMORY 3, 3⟩] ∧
      (acct_run env_recreate_fails job0
        [.handle CG_MEMORY 4243 3, .handle CG_MEMORY 4243 3]
        (init_state, acct_empty)).2.freed_in_list =
          [(CG_MEMORY, ⟨.task CG_MEMORY 3, 3⟩)]) ∧
    ((acct_run env_reinstantiate_fails job0 [.handle CG_MEMORY 4243 3]
        (init_state, acct_empty)).2.freed_in_list = [] ∧
      (acct_run env_reinstantiate_fails job0
        [.handle CG_MEMORY 4243 3, .handle CG_MEMORY 4243 3]
        (init_state, acct_empty)).2.g_task_acct_list CG_MEMORY = [⟨.task CG_MEMORY 3, 3⟩] ∧
      (acct_run env_reinstantiate_fails job0
        [.handle CG_MEMORY 4243 3, .handle CG_MEMORY 4243 3]
        (init_state, acct_empty)).2.freed_in_list =
          [(CG_MEMORY, ⟨.task CG_MEMORY 3, 3⟩)]) := by
  decide

/-- C18, at the failing input: the hierarchies of both controllers are
created, and `common_cgroup_create` fails for the task cgroup of the
cpu-accounting controller and of the memory controller.  Both failures are in
the trace (the second controller is still processed), and
`cgroup_p_task_addto_accounting` returns `SLURM_SUCCESS`. -/
theorem task_addto_accounting_failure_status :
    (⟨.common_cgroup_create CG_CPUACCT (.task CG_CPUACCT 3)
        "/slurm/uid_1000/job_7/step_0/task_3" 1000 1000, SLURM_ERROR⟩ : event) ∈
      (cgroup_p_task_addto_accounting env_create_fails 4243 job0 3 init_state
        acct_empty).2.1.trace ∧
    (⟨.common_cgroup_create CG_MEMORY (.task CG_MEMORY 3)
        "/slurm/uid_1000/job_7/step_0/task_3" 1000 1000, SLURM_ERROR⟩ : event) ∈
      (cgroup_p_task_addto_accounting env_create_fails 4243 job0 3 init_state
        acct_empty).2.1.trace ∧
    (_handle_task_cgroup env_create_fails CG_CPUACCT 4243 job0 3 init_state acct_empty).1 =
      SLURM_ERROR ∧
    (cgroup_p_task_addto_accounting env_create_fails 4243 job0 3 init_state acct_empty).1 =
      SLURM_SUCCESS := by
  decide

theorem rmdir_walk_trace (env : Env) (l : List task_cg_info_t) :
    ∀ s : cg_state, ∃ L, (list_for_each_rmdir env l s).trace = s.trace ++ L ∧
      L.map event.call = l.map (fun t => prim_call.common_cgroup_delete t.task_cg) := by
  induction l with
  | nil =>
    intro s
    exact ⟨[], by simp [list_for_each_rmdir], rfl⟩
  | cons t ts ih =>
    intro s
    obtain ⟨L, hL, hL'⟩ := ih (prim env (.common_cgroup_delete t.task_cg) s).2
    refine ⟨⟨.common_cgroup_delete t.task_cg,
      env.rc s.trace.length (.common_cgroup_delete t.task_cg)⟩ :: L, ?_, ?_⟩
    · have hnot : ¬ (_rmdir_task env t s).1 < 0 := by simp [_rmdir_task, SLURM_SUCCESS]
      simp only [list_for_each_rmdir, if_neg hnot]
      simp only [_rmdir_task, hL, prim_trace, List.append_assoc, List.singleton_append]
    · simp [hL']

theorem list_flush_trace (env : Env) (l : List task_cg_info_t) :
    ∀ s : cg_state, ∃ L, (list_flush env l s).trace = s.trace ++ L := by
  induction l with
  | nil =>
    intro s
    exact ⟨[], by simp [list_flush]⟩
  | cons t ts ih =>
    intro s
    obtain ⟨L, hL⟩ := ih (_free_task_cg_info env t s)
    refine ⟨⟨.common_cgroup_destroy t.task_cg,
      env.rc s.trace.length (.common_cgroup_destroy t.task_cg)⟩ :: L, ?_⟩
    simp only [list_flush, List.foldl_cons] at hL ⊢
    rw [hL]
    simp [_free_task_cg_info]

theorem step_destroy_trace_ext (env : Env) (sub : cgroup_ctl_type_t) (s : cg_state) :
    ∃ L, (cgroup_p_step_destroy env sub s).2.trace = s.trace ++ L := by
  unfold cgroup_p_step_destroy
  dsimp only
  obtain ⟨l, hl⟩ := step_destroy_custom_trace env sub s
  obtain ⟨rc, rest, hr⟩ := remove_trace_head env (.root sub) (.step sub) (.job sub)
    (.user sub) (step_destroy_custom env sub s)
  split_ifs
  · exact ⟨[], by simp⟩
  · exact ⟨[], by simp⟩
  · exact ⟨[], by simp⟩
  · exact ⟨l ++ ⟨.common_cgroup_move_process (.root sub) env.getpid, rc⟩ :: rest,
      by simp only [hr, hl, List.append_assoc]⟩
  · exact ⟨l ++ ⟨.common_cgroup_move_process (.root sub) env.getpid, rc⟩ :: rest,
      by simp only [hr, hl, List.append_assoc]⟩

/-- C19: after `cgroup_p_accounting_fini` the memory and the cpu-accounting
task collections are empty, whatever the deletions returned; for every record
that was in one of the two collections the deletion of its directory has been
attempted; and the status returned is the sum of the statuses of the two calls
of `cgroup_p_step_destroy` (memory, then cpu-accounting), so that, when these
are `SLURM_SUCCESS` or `SLURM_ERROR`, the call succeeds if and only if both
succeed. -/
theorem accounting_fini_flushes (env : Env) (s : cg_state) (a : acct_state) :
    (cgroup_p_accounting_fini env s a).2.2.g_task_acct_list CG_MEMORY = [] ∧
    (cgroup_p_accounting_fini env s a).2.2.g_task_acct_list CG_CPUACCT = [] ∧
    (∀ t ∈ a.g_task_acct_list CG_MEMORY ++ a.g_task_acct_list CG_CPUACCT,
      prim_call.common_cgroup_delete t.task_cg ∈
        (new_events s (cgroup_p_accounting_fini env s a).2.1).map event.call) ∧
    (cgroup_p_accounting_fini env s a).1 =
      (cgroup_p_step_destroy env CG_MEMORY (accounting_fini_flush env s a)).1 +
      (cgroup_p_step_destroy env CG_CPUACCT
        (cgroup_p_step_destroy env CG_MEMORY (accounting_fini_flush env s a)).2).1 ∧
    (((cgroup_p_step_destroy env CG_MEMORY (accounting_fini_flush env s a)).1 =
          SLURM_SUCCESS ∨
        (cgroup_p_step_destroy env CG_MEMORY (accounting_fini_flush env s a)).1 =
          SLURM_ERROR) →
      ((cgroup_p_step_destroy env CG_CPUACCT
            (cgroup_p_step_destroy env CG_MEMORY (accounting_fini_flush env s a)).2).1 =
          SLURM_SUCCESS ∨
        (cgroup_p_step_destroy env CG_CPUACCT
            (cgroup_p_step_destroy env CG_MEMORY (accounting_fini_flush env s a)).2).1 =
          SLURM_ERROR) →
      ((cgroup_p_accounting_fini env s a).1 = SLURM_SUCCESS ↔
        (cgroup_p_step_destroy env CG_MEMORY (accounting_fini_flush env s a)).1 =
            SLURM_SUCCESS ∧
          (cgroup_p_step_destroy env CG_CPUACCT
            (cgroup_p_step_destroy env CG_MEMORY (accounting_fini_flush env s a)).2).1 =
            SLURM_SUCCESS)) := by
  refine ⟨?_, ?_, ?_, rfl, fun h1 h2 => status_sum_two _ _ h1 h2⟩
  · simp [cgroup_p_accounting_fini, CG_MEMORY, CG_CPUACCT]
  · simp [cgroup_p_accounting_fini]
  · obtain ⟨L1, h1, h1'⟩ := rmdir_walk_trace env (a.g_task_acct_list CG_MEMORY) s
    obtain ⟨F1, hf1⟩ := list_flush_trace env (a.g_task_acct_list CG_MEMORY)
      (list_for_each_rmdir env (a.g_task_acct_list CG_MEMORY) s)
    obtain ⟨L2, h2, h2'⟩ := rmdir_walk_trace env (a.g_task_acct_list CG_CPUACCT)
      (list_flush env (a.g_task_acct_list CG_MEMORY)
        (list_for_each_rmdir env (a.g_task_acct_list CG_MEMORY) s))
    obtain ⟨F2, hf2⟩ := list_flush_trace env (a.g_task_acct_list CG_CPUACCT)
      (list_for_each_rmdir env (a.g_task_acct_list CG_CPUACCT)
        (list_flush env (a.g_task_acct_list CG_MEMORY)
          (list_for_each_rmdir env (a.g_task_acct_list CG_MEMORY) s)))
    obtain ⟨D1, hd1⟩ := step_destroy_trace_ext env CG_MEMORY (accounting_fini_flush env s a)
    obtain ⟨D2, hd2⟩ := step_destroy_trace_ext env CG_CPUACCT
      (cgroup_p_step_destroy env CG_MEMORY (accounting_fini_flush env s a)).2
    have hflush : (accounting_fini_flush env s a).trace = s.trace ++ (L1 ++ F1 ++ L2 ++ F2) := by
      simp only [accounting_fini_flush, hf2, h2, hf1, h1, List.append_assoc]
    have hall : (cgroup_p_accounting_fini env s a).2.1.trace =
        s.trace ++ (L1 ++ F1 ++ L2 ++ F2 ++ D1 ++ D2) := by
      simp only [cgroup_p_accounting_fini, hd2, hd1, hflush, List.append_assoc]
    rw [new_events_append s _ _ hall]
    intro t ht
    simp only [List.map_append, List.mem_append, h1', h2', List.mem_map]
    rcases List.mem_append.mp ht with h | h
    · exact Or.inl (Or.inl (Or.inl (Or.inl (Or.inl ⟨t, h, rfl⟩))))
    · exact Or.inl (Or.inl (Or.inl (Or.inr ⟨t, h, rfl⟩)))

/-! ### OOM monitor -/

theorem oom_wakeup_plain (w : wakeup) (cnt : Nat) (hcnt : cnt < 2 ^ 64)
    (h : 0 < w.ret ∧ no_error_flags w ∧ event_read_ok w ∧ delivers_no_stop w) :
    oom_monitor_wakeup w cnt = some ((cnt + delivered_count w) % 2 ^ 64, false) := by
  obtain ⟨hret, ⟨he0, he1⟩, hev, hns⟩ := h
  have h1 : w.ret ≠ -1 := by omega
  have h2 : w.ret ≠ 0 := by omega
  have hevent : oom_monitor_event w cnt = some ((cnt + delivered_count w) % 2 ^ 64, false) := by
    unfold oom_monitor_event delivered_count
    by_cases hr : w.revents0 &&& (POLLIN ||| POLLPRI) ≠ 0
    · have := hev hr
      rw [if_pos hr, if_pos hr]
      cases hrd : _read_fd w.event_reads 0 with
      | none => simp [hrd] at this
      | some p =>
        obtain ⟨rc, res⟩ := p
        simp only [hrd, Option.map_some', Option.some.injEq] at this
        simp [this]
    · rw [if_neg hr, if_neg hr, if_neg (by simp [he0])]
      rw [Nat.add_zero, Nat.mod_eq_of_lt hcnt]
  have hpipe : oom_monitor_pipe w = some false := by
    unfold oom_monitor_pipe
    by_cases hr : w.revents1 &&& POLLIN ≠ 0
    · obtain ⟨hs, hne⟩ := hns hr
      rw [if_pos hr]
      cases hrd : _read_fd w.pipe_reads 0 with
      | none => simp [hrd] at hs
      | some p =>
        obtain ⟨rc, res⟩ := p
        simp only [hrd, ne_eq, Option.some.injEq, Prod.mk.injEq] at hne
        simp [hne]
    · rw [if_neg hr, if_neg (by simp [he1])]
  unfold oom_monitor_wakeup
  rw [if_neg h1, if_neg h2, if_pos hret, hevent]
  simp [hpipe]

theorem oom_wakeup_stop (w : wakeup) (cnt : Nat) (hcnt : cnt < 2 ^ 64)
    (h : 0 < w.ret ∧ no_error_flags w ∧ event_read_ok w ∧ delivers_stop w) :
    oom_monitor_wakeup w cnt = some ((cnt + delivered_count w) % 2 ^ 64, true) := by
  obtain ⟨hret, ⟨he0, he1⟩, hev, hr, hrd⟩ := h
  have h1 : w.ret ≠ -1 := by omega
  have h2 : w.ret ≠ 0 := by omega
  have hevent : oom_monitor_event w cnt = some ((cnt + delivered_count w) % 2 ^ 64, false) := by
    unfold oom_monitor_event delivered_count
    by_cases hr : w.revents0 &&& (POLLIN ||| POLLPRI) ≠ 0
    · have := hev hr
      rw [if_pos hr, if_pos hr]
      cases hrd : _read_fd w.event_reads 0 with
      | none => simp [hrd] at this
      | some p =>
        obtain ⟨rc, res⟩ := p
        simp only [hrd, Option.map_some', Option.some.injEq] at this
        simp [this]
    · rw [if_neg hr, if_neg hr, if_neg (by simp [he0])]
      rw [Nat.add_zero, Nat.mod_eq_of_lt hcnt]
  have hpipe : oom_monitor_pipe w = some true := by
    unfold oom_monitor_pipe
    rw [if_pos hr, hrd]
    simp
  unfold oom_monitor_wakeup
  rw [if_neg h1, if_neg h2, if_pos hret, hevent]
  simp [hpipe]

theorem oom_loop_sum (w_stop : wakeup)
    (hstop : 0 < w_stop.ret ∧ no_error_flags w_stop ∧ event_read_ok w_stop ∧
      delivers_stop w_stop) :
    ∀ (ws : List wakeup) (cnt : Nat), cnt < 2 ^ 64 →
      (∀ w ∈ ws, 0 < w.ret ∧ no_error_flags w ∧ event_read_ok w ∧ delivers_no_stop w) →
      oom_monitor_loop (ws ++ [w_stop]) cnt =
        some ((cnt + ((ws ++ [w_stop]).map delivered_count).sum) % 2 ^ 64) := by
  intro ws
  induction ws with
  | nil =>
    intro cnt hcnt _
    simp [oom_monitor_loop, oom_wakeup_stop w_stop cnt hcnt hstop]
  | cons w ws ih =>
    intro cnt hcnt hws
    have hw := oom_wakeup_plain w cnt hcnt (hws w (List.mem_cons_self _ _))
    have hlt : (cnt + delivered_count w) % 2 ^ 64 < 2 ^ 64 := Nat.mod_lt _ (by norm_num)
    have := ih ((cnt + delivered_count w) % 2 ^ 64) hlt
      (fun x hx => hws x (List.mem_cons_of_mem _ hx))
    rw [List.cons_append, oom_monitor_loop, hw]
    simp only
    rw [this, Nat.mod_add_mod, List.map_cons, List.sum_cons, Nat.add_assoc]

theorem sum_map_const (f : wakeup → Nat) (c : Nat) :
    ∀ l : List wakeup, (∀ w ∈ l, f w = c) → (l.map f).sum = l.length * c
  | [], _ => by simp
  | w :: l, h => by
    have ih := sum_map_const f c l (fun x hx => h x (List.mem_cons_of_mem _ hx))
    simp only [List.map_cons, List.sum_cons, List.length_cons, ih,
      h w (List.mem_cons_self _ _)]
    ring

theorem start_oom_mgr_resets (env : Env) (ws : List wakeup) (s : cg_state) (o : oom_state)
    (h : (cgroup_p_step_start_oom_mgr env ws s o).1 = SLURM_SUCCESS) :
    (cgroup_p_step_start_oom_mgr env ws s o).2.2.oom_kill_count = 0 ∧
    (cgroup_p_step_start_oom_mgr env ws s o).2.2.oom_thread_created = true ∧
    ∃ args, (cgroup_p_step_start_oom_mgr env ws s o).2.2.monitor = some (args, ws) := by
  have hne := slurm_error_ne_success
  have hfst : ∀ rc a b c s' o', (oom_start_fini env rc a b c s' o').1 = rc := by
    intro rc a b c s' o'
    unfold oom_start_fini
    split_ifs <;> rfl
  have hsnd : ∀ rc a b c s' o', (oom_start_fini env rc a b c s' o').2.2 = o' := by
    intro rc a b c s' o'
    unfold oom_start_fini
    split_ifs <;> rfl
  unfold cgroup_p_step_start_oom_mgr at h ⊢
  dsimp only at h ⊢
  split_ifs at h ⊢
  all_goals first
    | exact absurd ((hfst _ _ _ _ _ _).symm.trans h) hne
    | (rw [hsnd]; exact ⟨rfl, rfl, _, rfl⟩)

theorem stop_oom_mgr_reports (env : Env) (fuel : Nat) (s : cg_state) (o : oom_state)
    (args : oom_event_args_t) (ws : List wakeup) (c : Nat)
    (harmed : o.oom_thread_created = true) (hthread : o.oom_thread ≠ 0)
    (hmon : o.monitor = some (args, ws))
    (hlock : env.rc s.trace.length (.xcgroup_lock (.step CG_MEMORY)) = SLURM_SUCCESS)
    (hintr : ∀ k, env.eintr k = false)
    (hloop : oom_monitor_loop ws o.oom_kill_count = some c) :
    ∃ res s1 o1, cgroup_p_step_stop_oom_mgr env (fuel + 1) s o = some (some res, s1, o1) ∧
      res.oom_kill_cnt = c := by
  have hw : ∀ fd s0, write_stop_msg env fd (fuel + 1) s0 =
      some (prim env (.sys_write_u64 fd STOP_OOM) s0).2 := by
    intro fd s0
    simp [write_stop_msg, hintr]
  have hj : ∀ s0, oom_join env s0 o =
      some ((prim env .pthread_join s0).2, { o with oom_kill_count := c, monitor := none }) := by
    intro s0
    simp [oom_join, hthread, hmon, _oom_event_monitor, hloop]
  unfold cgroup_p_step_stop_oom_mgr
  simp only [harmed, Bool.not_true, Bool.false_eq_true, if_false, prim_fst, hlock, ne_eq,
    not_true_eq_false, hw, hj]
  exact ⟨_, _, _, rfl, rfl⟩

/-- C13: take the wakeups of the monitor thread up to and including the first
one that delivers the stop message, where no descriptor reports an error, no
call of `poll` fails and every read of the event descriptor succeeds.  The loop
of `_oom_event_monitor` is left at the last of these wakeups, and
`oom_kill_count` then is its value at the start plus the sum, modulo `2 ^ 64`,
of all counts delivered by the event source, the one delivered together with
the stop message included.  `cgroup_p_step_start_oom_mgr` sets the start value
to 0, and `cgroup_p_step_stop_oom_mgr` reports the value at the exit of the
loop as `oom_kill_cnt`: 0 when no count was delivered, `k` after `k`
notifications of one kill each. -/
theorem oom_monitor_counts (ws : List wakeup) (w_stop : wakeup) (start : Nat)
    (hstart : start < 2 ^ 64)
    (hws : ∀ w ∈ ws, 0 < w.ret ∧ no_error_flags w ∧ event_read_ok w ∧ delivers_no_stop w)
    (hstop : 0 < w_stop.ret ∧ no_error_flags w_stop ∧ event_read_ok w_stop ∧
      delivers_stop w_stop) :
    oom_monitor_loop (ws ++ [w_stop]) start =
      some ((start + ((ws ++ [w_stop]).map delivered_count).sum) % 2 ^ 64) ∧
    (start = 0 → (∀ w ∈ ws ++ [w_stop], delivered_count w = 0) →
      oom_monitor_loop (ws ++ [w_stop]) start = some 0) ∧
    (start = 0 → (∀ w ∈ ws, delivered_count w = 1) → delivered_count w_stop = 0 →
      ws.length < 2 ^ 64 →
      oom_monitor_loop (ws ++ [w_stop]) start = some ws.length) ∧
    (∀ (env : Env) (s : cg_state) (o : oom_state),
      (cgroup_p_step_start_oom_mgr env (ws ++ [w_stop]) s o).1 = SLURM_SUCCESS →
      (cgroup_p_step_start_oom_mgr env (ws ++ [w_stop]) s o).2.2.oom_kill_count = 0) ∧
    (∀ (env : Env) (fuel : Nat) (s : cg_state) (o : oom_state) (args : oom_event_args_t),
      o.oom_thread_created = true → o.oom_thread ≠ 0 →
      o.monitor = some (args, ws ++ [w_stop]) → o.oom_kill_count = start →
      env.rc s.trace.length (.xcgroup_lock (.step CG_MEMORY)) = SLURM_SUCCESS →
      (∀ k, env.eintr k = false) →
      ∃ res s1 o1,
        cgroup_p_step_stop_oom_mgr env (fuel + 1) s o = some (some res, s1, o1) ∧
        res.oom_kill_cnt =
          (start + ((ws ++ [w_stop]).map delivered_count).sum) % 2 ^ 64) := by
  have hmain := oom_loop_sum w_stop hstop ws start hstart hws
  refine ⟨hmain, fun h0 hz => ?_, fun h0 h1 hs hlen => ?_, fun env s o h => ?_,
    fun env fuel s o args ha ht hm hc hl hi => ?_⟩
  · rw [hmain, sum_map_const delivered_count 0 _ hz, h0]
    rfl
  · rw [hmain, List.map_append, List.sum_append, sum_map_const delivered_count 1 ws h1, h0]
    simp only [List.map_cons, List.map_nil, List.sum_cons, List.sum_nil, hs, Nat.mul_one,
      Nat.add_zero, Nat.zero_add]
    rw [Nat.mod_eq_of_lt hlen]
  · exact (start_oom_mgr_resets env _ s o h).1
  · exact stop_oom_mgr_reports env fuel s o args _ _ ha ht hm hl hi (hc ▸ hmain)

/-- Witness of C13: three notifications of one kill each, then the stop
message; the counter goes from 0 to 3. -/
theorem oom_monitor_counts_witness :
    oom_monitor_loop ([wakeup_kills 1, wakeup_kills 1, wakeup_kills 1] ++ [wakeup_stop]) 0 =
      some 3 := by
  have hk : 0 < (wakeup_kills 1).ret ∧ no_error_flags (wakeup_kills 1) ∧
      event_read_ok (wakeup_kills 1) ∧ delivers_no_stop (wakeup_kills 1) := by
    refine ⟨by decide, ⟨by decide, by decide⟩, fun _ => by decide, fun h => ?_⟩
    exact absurd rfl h
  have hs : 0 < wakeup_stop.ret ∧ no_error_flags wakeup_stop ∧ event_read_ok wakeup_stop ∧
      delivers_stop wakeup_stop := by
    refine ⟨by decide, ⟨by decide, by decide⟩, fun h => ?_, by decide, by decide⟩
    exact absurd rfl h
  exact (oom_monitor_counts [wakeup_kills 1, wakeup_kills 1, wakeup_kills 1] wakeup_stop 0
    (by norm_num)
    (fun w hw => by
      simp only [List.mem_cons, List.mem_singleton, List.not_mem_nil, or_false, or_self] at hw
      rw [hw]
      exact hk)
    hs).2.2.1 rfl
    (fun w hw => by
      simp only [List.mem_cons, List.mem_singleton, List.not_mem_nil, or_false, or_self] at hw
      rw [hw]
      decide)
    (by decide) (by norm_num)

theorem or_eq_zero_left {x y : Nat} (h : x ||| y = 0) : x = 0 := by
  apply Nat.eq_of_testBit_eq
  intro i
  have := congrArg (fun n => n.testBit i) h
  simp only [Nat.testBit_or, Nat.zero_testBit, Bool.or_eq_false_iff] at this
  simp [this.1]

theorem or_eq_zero_right {x y : Nat} (h : x ||| y = 0) : y = 0 := by
  apply Nat.eq_of_testBit_eq
  intro i
  have := congrArg (fun n => n.testBit i) h
  simp only [Nat.testBit_or, Nat.zero_testBit, Bool.or_eq_false_iff] at this
  simp [this.2]

theorem error_mask_hit (r : Nat)
    (h : r &&& POLLERR ≠ 0 ∨ r &&& POLLHUP ≠ 0 ∨ r &&& POLLNVAL ≠ 0 ∨ r &&& POLLRDHUP ≠ 0) :
    r &&& POLL_ERROR_MASK ≠ 0 := by
  intro h0
  unfold POLL_ERROR_MASK at h0
  rw [Nat.and_or_distrib_left, Nat.and_or_distrib_left, Nat.and_or_distrib_left] at h0
  have h1 := or_eq_zero_right h0
  have h2 := or_eq_zero_right (or_eq_zero_left h0)
  have h3 := or_eq_zero_right (or_eq_zero_left (or_eq_zero_left h0))
  have h4 := or_eq_zero_left (or_eq_zero_left (or_eq_zero_left h0))
  rcases h with h | h | h | h
  · exact h h3
  · exact h h2
  · exact h h1
  · exact h h4

/-- C14 as stated fails: the event descriptor reports `POLLHUP` together with
`POLLIN`; the count is read and the loop is not left in that iteration. -/
theorem oom_hangup_counterexample :
    0 < wakeup_readable_hangup.ret ∧
    wakeup_readable_hangup.revents0 &&& POLLHUP ≠ 0 ∧
    oom_monitor_wakeup wakeup_readable_hangup 0 = some (1, false) ∧
    oom_monitor_loop [wakeup_readable_hangup] 0 = none := by
  decide

/-- A wakeup (`poll` returned a positive value) whose event descriptor reports
`POLLIN` or `POLLPRI`: the count is read, and whether the loop is left is what
the handling of the pipe says. -/
theorem oom_wakeup_readable (w : wakeup) (cnt : Nat) (hret : 0 < w.ret)
    (hr : w.revents0 &&& (POLLIN ||| POLLPRI) ≠ 0) :
    oom_monitor_wakeup w cnt =
      match _read_fd w.event_reads 0 with
      | none => none
      | some (rc, res) =>
        (oom_monitor_pipe w).map
          (fun b => (if rc = SLURM_SUCCESS then (cnt + res) % 2 ^ 64 else cnt, b)) := by
  have h1 : w.ret ≠ -1 := by omega
  have h2 : w.ret ≠ 0 := by omega
  unfold oom_monitor_wakeup oom_monitor_event
  rw [if_neg h1, if_neg h2, if_pos hret, if_pos hr]
  cases hrd : _read_fd w.event_reads 0 with
  | none => rfl
  | some p =>
    obtain ⟨rc, res⟩ := p
    by_cases hrc : rc = SLURM_SUCCESS
    · simp only [hrc, if_true]
      cases oom_monitor_pipe w <;> rfl
    · simp only [hrc, if_false]
      cases oom_monitor_pipe w <;> rfl

/-- C14, amended: in a wakeup (`poll` returned a positive value) in which the
flags of the event descriptor contain one of `POLLERR`, `POLLHUP`, `POLLNVAL`,
`POLLRDHUP` and contain neither `POLLIN` nor `POLLPRI`, the loop of the monitor
is left in that iteration, whatever else the wakeup holds, and the counter
keeps its value.  When `POLLIN` or `POLLPRI` is set, the count is read and the
other flags of the event descriptor are not looked at: the outcome of the
iteration is given by the read of the event descriptor and the handling of the
pipe, it is the same for every other flag word with `POLLIN` or `POLLPRI`, and
when the read succeeds and the pipe gives no reason to stop, the count is added
and the loop goes on to the next wakeup. -/
theorem oom_hangup_terminates (w : wakeup) (cnt : Nat) (hret : 0 < w.ret) :
    (w.revents0 &&& (POLLIN ||| POLLPRI) = 0 →
      (w.revents0 &&& POLLERR ≠ 0 ∨ w.revents0 &&& POLLHUP ≠ 0 ∨
        w.revents0 &&& POLLNVAL ≠ 0 ∨ w.revents0 &&& POLLRDHUP ≠ 0) →
      oom_monitor_wakeup w cnt = some (cnt, true) ∧
      ∀ ws, oom_monitor_loop (w :: ws) cnt = some cnt) ∧
    (w.revents0 &&& (POLLIN ||| POLLPRI) ≠ 0 →
      (oom_monitor_wakeup w cnt =
        match _read_fd w.event_reads 0 with
        | none => none
        | some (rc, res) =>
          (oom_monitor_pipe w).map
            (fun b => (if rc = SLURM_SUCCESS then (cnt + res) % 2 ^ 64 else cnt, b))) ∧
      (∀ r, r &&& (POLLIN ||| POLLPRI) ≠ 0 →
        oom_monitor_wakeup { w with revents0 := r } cnt = oom_monitor_wakeup w cnt) ∧
      (∀ res, _read_fd w.event_reads 0 = some (SLURM_SUCCESS, res) →
        oom_monitor_pipe w = some false →
        oom_monitor_wakeup w cnt = some ((cnt + res) % 2 ^ 64, false) ∧
        ∀ ws, oom_monitor_loop (w :: ws) cnt =
          oom_monitor_loop ws ((cnt + res) % 2 ^ 64))) := by
  refine ⟨fun hnr herr => ?_, fun hr => ⟨oom_wakeup_readable w cnt hret hr, fun r hr2 => ?_,
    fun res hrd hp => ?_⟩⟩
  · have h1 : w.ret ≠ -1 := by omega
    have h2 : w.ret ≠ 0 := by omega
    have hm := error_mask_hit w.revents0 herr
    have hev : oom_monitor_event w cnt = some (cnt, true) := by
      unfold oom_monitor_event
      rw [if_neg (by simp [hnr]), if_pos hm]
    have hw : oom_monitor_wakeup w cnt = some (cnt, true) := by
      unfold oom_monitor_wakeup
      rw [if_neg h1, if_neg h2, if_pos hret, hev]
    refine ⟨hw, fun ws => ?_⟩
    rw [oom_monitor_loop, hw]
  · rw [oom_wakeup_readable w cnt hret hr,
      oom_wakeup_readable { w with revents0 := r } cnt hret hr2]
    rfl
  · have hw : oom_monitor_wakeup w cnt = some ((cnt + res) % 2 ^ 64, false) := by
      rw [oom_wakeup_readable w cnt hret hr, hrd, hp]
      rfl
    refine ⟨hw, fun ws => ?_⟩
    rw [oom_monitor_loop, hw]

/-- Witness of C14, amended: the event descriptor reports `POLLHUP` only (the
loop is left), and `POLLIN` with `POLLHUP` (the count is read, the loop goes
on). -/
theorem oom_hangup_terminates_witness :
    (0 < wakeup_hangup.ret ∧ wakeup_hangup.revents0 &&& (POLLIN ||| POLLPRI) = 0 ∧
      wakeup_hangup.revents0 &&& POLLHUP ≠ 0) ∧
    oom_monitor_wakeup wakeup_hangup 5 = some (5, true) ∧
    (0 < wakeup_readable_hangup.ret ∧
      wakeup_readable_hangup.revents0 &&& (POLLIN ||| POLLPRI) ≠ 0 ∧
      wakeup_readable_hangup.revents0 &&& POLLHUP ≠ 0 ∧
      _read_fd wakeup_readable_hangup.event_reads 0 = some (SLURM_SUCCESS, 1) ∧
      oom_monitor_pipe wakeup_readable_hangup = some false) ∧
    oom_monitor_wakeup wakeup_readable_hangup 5 = some (6, false) :=
  ⟨by decide,
   ((oom_hangup_terminates wakeup_hangup 5 (by decide)).1 (by decide)
      (Or.inr (Or.inl (by decide)))).1,
   by decide,
   (((oom_hangup_terminates wakeup_readable_hangup 5 (by decide)).2 (by decide)).2.2 1
      (by decide) (by decide)).1⟩
theorem oom_join_flag (env : Env) (s : cg_state) (o : oom_state) (s1 : cg_state)
    (o1 : oom_state) (h : oom_join env s o = some (s1, o1)) :
    o1.oom_thread_created = o.oom_thread_created := by
  unfold oom_join at h
  split_ifs at h
  · simp only [Option.some.injEq, Prod.mk.injEq] at h
    rw [← h.2]
  · split at h
    · exact absurd h (by simp)
    · split at h
      · exact absurd h (by simp)
      · simp only [Option.some.injEq, Prod.mk.injEq] at h
        rw [← h.2]

/-- C15 as stated fails: the monitor is armed by
`cgroup_p_step_start_oom_mgr` and stopped by `cgroup_p_step_stop_oom_mgr`; the
stop returns results, and after it `oom_thread_created` is still true: the
monitor is still armed, and a second stop is not a call that returns `NULL`. -/
theorem stop_oom_mgr_twice_counterexample :
    (cgroup_p_step_start_oom_mgr env_oom [wakeup_stop] init_state
      oom_init).2.2.oom_thread_created = true ∧
    (cgroup_p_step_stop_oom_mgr env_oom 1
        (cgroup_p_step_start_oom_mgr env_oom [wakeup_stop] init_state oom_init).2.1
        (cgroup_p_step_start_oom_mgr env_oom [wakeup_stop] init_state oom_init).2.2).map
      (fun x => (x.1.isSome, x.2.2.oom_thread_created)) = some (true, true) ∧
    (stop_oom_mgr_twice env_oom 1
        (cgroup_p_step_start_oom_mgr env_oom [wakeup_stop] init_state oom_init).2.1
        (cgroup_p_step_start_oom_mgr env_oom [wakeup_stop] init_state oom_init).2.2).map
      (fun x => x.1.isSome) ≠ some false := by
  decide

/-- C15, amended: if the monitor is not armed, `cgroup_p_step_stop_oom_mgr`
returns `NULL`, and the only call it makes is the `close` of `oom_pipe[1]`
(when that is not -1): it writes no stop message, reads no failure counter and
leaves the variables of the manager as they are.  If the monitor is armed and
its thread has not been joined yet: when the lock on the step cgroup cannot be
taken, the call returns `NULL` and leaves the variables as they are; when the
lock is taken, no write of the stop message is interrupted and the thread
leaves its loop, the call returns a results object with the count of the
thread; whenever the call returns, `oom_thread_created` is still true
afterwards (the flag is never cleared), and the call returns `NULL` exactly
when the lock could not be taken. -/
theorem stop_oom_mgr_armed_flag (env : Env) (fuel : Nat) (s : cg_state) (o : oom_state) :
    (o.oom_thread_created = false →
      cgroup_p_step_stop_oom_mgr env fuel s o =
          some (none, close_fd env o.oom_pipe.2 s, o) ∧
        ∀ e ∈ new_events s (close_fd env o.oom_pipe.2 s),
          e.call = .sys_close o.oom_pipe.2) ∧
    (o.oom_thread_created = true →
      ∀ args ws, o.monitor = some (args, ws) →
        (env.rc s.trace.length (.xcgroup_lock (.step CG_MEMORY)) ≠ SLURM_SUCCESS →
          cgroup_p_step_stop_oom_mgr env fuel s o =
            some (none,
              close_fd env o.oom_pipe.2 (prim env (.xcgroup_lock (.step CG_MEMORY)) s).2,
              o)) ∧
        (env.rc s.trace.length (.xcgroup_lock (.step CG_MEMORY)) = SLURM_SUCCESS →
          o.oom_thread ≠ 0 → (∀ k, env.eintr k = false) →
          ∀ c, oom_monitor_loop ws o.oom_kill_count = some c →
            ∃ res s1 o1,
              cgroup_p_step_stop_oom_mgr env (fuel + 1) s o = some (some res, s1, o1) ∧
              res.oom_kill_cnt = c ∧ o1.oom_thread_created = true ∧ o1.monitor = none) ∧
        (∀ r s1 o1, cgroup_p_step_stop_oom_mgr env fuel s o = some (r, s1, o1) →
          o1.oom_thread_created = true ∧
          (r = none ↔
            env.rc s.trace.length (.xcgroup_lock (.step CG_MEMORY)) ≠ SLURM_SUCCESS))) := by
  refine ⟨fun h => ⟨?_, ?_⟩, fun h args ws hmon => ⟨fun hl => ?_,
    fun hl hthread hintr c hloop => ?_, fun r s1 o1 hr => ?_⟩⟩
  · simp [cgroup_p_step_stop_oom_mgr, h, oom_stop_fail]
  · unfold close_fd
    split_ifs <;> simp [new_events]
  · unfold cgroup_p_step_stop_oom_mgr
    simp only [h, Bool.not_true, Bool.false_eq_true, if_false, prim_fst, ne_eq, hl,
      not_false_eq_true, if_true, oom_stop_fail]
  · have hw : ∀ fd s0, write_stop_msg env fd (fuel + 1) s0 =
        some (prim env (.sys_write_u64 fd STOP_OOM) s0).2 := by
      intro fd s0
      simp [write_stop_msg, hintr]
    have hj : ∀ s0, oom_join env s0 o =
        some ((prim env .pthread_join s0).2,
          { o with oom_kill_count := c, monitor := none }) := by
      intro s0
      simp [oom_join, hthread, hmon, _oom_event_monitor, hloop]
    unfold cgroup_p_step_stop_oom_mgr
    simp only [h, Bool.not_true, Bool.false_eq_true, if_false, prim_fst, hl, ne_eq,
      not_true_eq_false, hw, hj]
    exact ⟨_, _, _, rfl, rfl, rfl, rfl⟩
  · unfold cgroup_p_step_stop_oom_mgr at hr
    simp only [h, Bool.not_true, Bool.false_eq_true, if_false, prim_fst] at hr
    by_cases hl : env.rc s.trace.length (.xcgroup_lock (.step CG_MEMORY)) = SLURM_SUCCESS
    · simp only [hl, ne_eq, not_true_eq_false, if_false] at hr
      split at hr
      · exact absurd hr (by simp)
      · split at hr
        · exact absurd hr (by simp)
        · rename_i s7 o7 hj
          simp only [oom_stop_fail, Option.some.injEq, Prod.mk.injEq] at hr
          obtain ⟨hr1, _, hr3⟩ := hr
          refine ⟨?_, ?_⟩
          · rw [← hr3, oom_join_flag env _ o s7 o7 hj, h]
          · rw [← hr1]
            simp [hl]
    · simp only [hl, ne_eq, not_false_eq_true, if_true, oom_stop_fail, Option.some.injEq,
        Prod.mk.injEq] at hr
      obtain ⟨hr1, _, hr3⟩ := hr
      exact ⟨by rw [← hr3, h], by rw [← hr1]; simp [hl]⟩

/-- Witness of C15, amended: the manager as loaded (not armed, `oom_pipe[1]`
is -1): the stop returns `NULL` and makes no call; and the monitor armed by
`cgroup_p_step_start_oom_mgr`, whose thread is woken by the stop message: the
stop returns results and the flag is still true. -/
theorem stop_oom_mgr_armed_flag_witness :
    (oom_init.oom_thread_created = false ∧
      cgroup_p_step_stop_oom_mgr env_oom 1 init_state oom_init =
        some (none, close_fd env_oom oom_init.oom_pipe.2 init_state, oom_init) ∧
      new_events init_state (close_fd env_oom oom_init.oom_pipe.2 init_state) = []) ∧
    ((cgroup_p_step_start_oom_mgr env_oom [wakeup_stop] init_state
        oom_init).2.2.oom_thread_created = true ∧
      (cgroup_p_step_start_oom_mgr env_oom [wakeup_stop] init_state oom_init).2.2.monitor =
        some (⟨7, 8, 9⟩, [wakeup_stop]) ∧
      oom_monitor_loop [wakeup_stop] 0 = some 0 ∧
      ∃ res s1 o1,
        cgroup_p_step_stop_oom_mgr env_oom (0 + 1)
            (cgroup_p_step_start_oom_mgr env_oom [wakeup_stop] init_state oom_init).2.1
            (cgroup_p_step_start_oom_mgr env_oom [wakeup_stop] init_state oom_init).2.2 =
          some (some res, s1, o1) ∧
        res.oom_kill_cnt = 0 ∧ o1.oom_thread_created = true ∧ o1.monitor = none) :=
  ⟨⟨rfl, ((stop_oom_mgr_armed_flag env_oom 1 init_state oom_init).1 rfl).1, by decide⟩,
   by decide, rfl, by decide,
   ((stop_oom_mgr_armed_flag env_oom 0
      (cgroup_p_step_start_oom_mgr env_oom [wakeup_stop] init_state oom_init).2.1
      (cgroup_p_step_start_oom_mgr env_oom [wakeup_stop] init_state oom_init).2.2).2
      (by decide) ⟨7, 8, 9⟩ [wakeup_stop] rfl).2.1 (by decide) (by decide)
      (fun _ => rfl) 0 (by decide)⟩

/-- Witness of C19: no task directory can be deleted; the collections are
empty afterwards all the same, the deletion of the directory of task 3 was
attempted, and the call succeeds. -/
theorem accounting_fini_flushes_witness :
    (cgroup_p_accounting_fini env_delete_fails init_state
      acct_task3).2.2.g_task_acct_list CG_MEMORY = [] ∧
    prim_call.common_cgroup_delete (.task CG_CPUACCT 3) ∈
      (new_events init_state
        (cgroup_p_accounting_fini env_delete_fails init_state acct_task3).2.1).map
        event.call ∧
    (cgroup_p_accounting_fini env_delete_fails init_state acct_task3).1 = SLURM_SUCCESS :=
  ⟨(accounting_fini_flushes env_delete_fails init_state acct_task3).1,
   (accounting_fini_flushes env_delete_fails init_state acct_task3).2.2.1
     ⟨.task CG_CPUACCT 3, 3⟩ (by decide),
   by decide⟩

/-! ### Statistics of a task -/

/-- C17 as stated fails: `memory.stat` is a well-formed list of lines that
contains the lines `total_rss 7` and `total_pgmajfault 3`, after a line
`total_rss_huge 5`; the result has `total_rss` equal to `NO_VAL64`. -/
theorem task_get_acct_data_counterexample :
    (cgroup_p_task_get_acct_data
      (env_stat "user 12\nsystem 34\n" "total_rss_huge 5\ntotal_rss 7\ntotal_pgmajfault 3\n")
      3 init_state acct_task3).1 =
      some
        { usec := 12
          ssec := 34
          total_rss := NO_VAL64
          total_pgmajfault := 3 } := by
  decide

theorem digit_not_space (c : Char) (h : is_digit c = true) :
    is_space c = false ∧ c.toNat ≠ 45 ∧ c.toNat ≠ 43 := by
  unfold is_digit at h
  unfold is_space
  simp only [Bool.and_eq_true, decide_eq_true_eq] at h
  refine ⟨?_, by omega, by omega⟩
  simp only [Bool.or_eq_false_iff, decide_eq_false_iff_not, Bool.and_eq_false_iff]
  omega

theorem takeWhile_digits (x : Char) (rest : List Char) (hx : is_digit x = false) :
    ∀ ds : List Char, (∀ c ∈ ds, is_digit c = true) →
      (ds ++ x :: rest).takeWhile is_digit = ds ∧
      (ds ++ x :: rest).dropWhile is_digit = x :: rest
  | [], _ => by simp [List.takeWhile, List.dropWhile, hx]
  | d :: ds, h => by
    have hd := h d (List.mem_cons_self _ _)
    have ih := takeWhile_digits x rest hx ds (fun c hc => h c (List.mem_cons_of_mem _ hc))
    simp [List.takeWhile, List.dropWhile, hd, ih.1, ih.2]

theorem skip_space_digits (ds rest : List Char) (hne : ds ≠ [])
    (hd : ∀ c ∈ ds, is_digit c = true) :
    skip_space (ds ++ rest) = ds ++ rest := by
  cases ds with
  | nil => exact absurd rfl hne
  | cons d ds =>
    have := (digit_not_space d (hd d (List.mem_cons_self _ _))).1
    simp [skip_space, this]

theorem scan_ulong_decimal (ds : List Char) (x : Char) (rest : List Char)
    (hdec : decimal ds) (hx : is_digit x = false) :
    scan_ulong (ds ++ x :: rest) = some (dec_value ds, x :: rest) := by
  obtain ⟨hne, hd, hv⟩ := hdec
  have htw := takeWhile_digits x rest hx ds hd
  have hlt : ¬ 2 ^ 64 ≤ dec_value ds := by
    unfold NO_VAL64 at hv
    omega
  unfold scan_ulong
  rw [skip_space_digits ds _ hne hd]
  cases ds with
  | nil => exact absurd rfl hne
  | cons d ds =>
    obtain ⟨_, h45, h43⟩ := digit_not_space d (hd d (List.mem_cons_self _ _))
    simp only [List.cons_append, h45, h43, if_false]
    rw [← List.cons_append]
    unfold scan_digits
    rw [htw.1, htw.2]
    rw [if_neg (by simp), if_neg hlt]
    simp

theorem scan_skip_word_lit (w : List Char) (x : Char) (rest : List Char) (hne : w ≠ [])
    (hw : ∀ c ∈ w, is_space c = false) (hx : is_space x = true) :
    scan_skip_word (w ++ x :: rest) = some (x :: rest) := by
  have hdrop : ∀ v : List Char, (∀ c ∈ v, is_space c = false) →
      (v ++ x :: rest).dropWhile (fun d => !is_space d) = x :: rest := by
    intro v
    induction v with
    | nil => intro _; simp [List.dropWhile, hx]
    | cons c v ih =>
      intro hv
      have hc := hv c (List.mem_cons_self _ _)
      simp [List.dropWhile, hc, ih (fun c hc => hv c (List.mem_cons_of_mem _ hc))]
  cases w with
  | nil => exact absurd rfl hne
  | cons c w =>
    have hc := hw c (List.mem_cons_self _ _)
    unfold scan_skip_word
    simp only [List.cons_append, skip_space, hc, Bool.false_eq_true, if_false]
    exact congrArg some (hdrop (c :: w) hw)

theorem sscanf_run_lits (fmt : List scan_item) (rest : List Char) :
    ∀ w : List Char, sscanf_run (w.map scan_item.lit ++ fmt) (w ++ rest) = sscanf_run fmt rest
  | [] => rfl
  | c :: w => by
    simp [sscanf_run, sscanf_run_lits fmt rest w]

theorem strstr_first (needle rest : List Char) :
    ∀ before : List Char, starts_with rest needle = true →
      (∀ i < before.length, starts_with ((before ++ rest).drop i) needle = false) →
      strstr (before ++ rest) needle = some rest
  | [], h, _ => by
    cases rest with
    | nil =>
      cases needle with
      | nil => simp [strstr]
      | cons n needle => simp [starts_with] at h
    | cons r rest => simp [strstr, h]
  | b :: before, h, hb => by
    have h0 := hb 0 (by simp)
    have ih := strstr_first needle rest before h (fun i hi => by
      have := hb (i + 1) (by simp; omega)
      simpa using this)
    simp only [List.drop_zero] at h0
    simp only [List.cons_append] at h0 ⊢
    simp [strstr, h0, ih]

theorem sscanf_cpuacct (du ds : List Char) (hdu : decimal du) (hds : decimal ds) :
    sscanf (String.mk ("user ".data ++ du ++ "\nsystem ".data ++ ds ++ "\n".data))
      "%*s %lu %*s %lu" = [dec_value du, dec_value ds] := by
  have hfmt : parse_format "%*s %lu %*s %lu".data =
      [.skip_word, .space, .ulong, .space, .skip_word, .space, .ulong] := by decide
  have hnl : is_digit (Char.ofNat 10) = false := by decide
  have e1 : "user ".data ++ du ++ "\nsystem ".data ++ ds ++ "\n".data =
      "user".data ++ Char.ofNat 32 ::
        (du ++ Char.ofNat 10 :: ("system".data ++ Char.ofNat 32 ::
          (ds ++ Char.ofNat 10 :: []))) := by
    have a1 : "user ".data = "user".data ++ [Char.ofNat 32] := by decide
    have a2 : "\nsystem ".data = Char.ofNat 10 :: ("system".data ++ [Char.ofNat 32]) := by
      decide
    have a3 : "\n".data = [Char.ofNat 10] := by decide
    rw [a1, a2, a3]
    simp
  have w1 := scan_skip_word_lit "user".data (Char.ofNat 32)
    (du ++ Char.ofNat 10 :: ("system".data ++ Char.ofNat 32 :: (ds ++ Char.ofNat 10 :: [])))
    (by decide) (by decide) (by decide)
  have w2 := scan_skip_word_lit "system".data (Char.ofNat 32) (ds ++ Char.ofNat 10 :: [])
    (by decide) (by decide) (by decide)
  have u1 := scan_ulong_decimal du (Char.ofNat 10)
    ("system".data ++ Char.ofNat 32 :: (ds ++ Char.ofNat 10 :: [])) hdu hnl
  have u2 := scan_ulong_decimal ds (Char.ofNat 10) [] hds hnl
  have k1 := skip_space_digits du
    (Char.ofNat 10 :: ("system".data ++ Char.ofNat 32 :: (ds ++ Char.ofNat 10 :: [])))
    hdu.1 hdu.2.1
  have k2 := skip_space_digits ds (Char.ofNat 10 :: []) hds.1 hds.2.1
  have sp1 : ∀ l, skip_space (Char.ofNat 32 :: l) = skip_space l := by
    intro l
    simp [skip_space, show is_space (Char.ofNat 32) = true by decide]
  have sp2 : ∀ l, skip_space (Char.ofNat 10 :: ("system".data ++ l)) = "system".data ++ l := by
    intro l
    have a : "system".data = Char.ofNat 115 :: "ystem".data := by decide
    rw [a]
    simp [skip_space, show is_space (Char.ofNat 10) = true by decide,
      show is_space (Char.ofNat 115) = false by decide]
  unfold sscanf
  rw [hfmt]
  simp only [e1]
  simp only [sscanf_run, w1, sp1, k1, u1, sp2, w2, k2, u2]



theorem sscanf_after_word (w fmt : String) (ds post : List Char) (hdec : decimal ds)
    (hfmt : parse_format fmt.data = w.data.map scan_item.lit ++ [.space, .ulong]) :
    sscanf (String.mk (w.data ++ Char.ofNat 32 :: (ds ++ Char.ofNat 10 :: post))) fmt =
      [dec_value ds] := by
  have hnl : is_digit (Char.ofNat 10) = false := by decide
  have u1 := scan_ulong_decimal ds (Char.ofNat 10) post hdec hnl
  have k1 := skip_space_digits ds (Char.ofNat 10 :: post) hdec.1 hdec.2.1
  have sp1 : ∀ l, skip_space (Char.ofNat 32 :: l) = skip_space l := by
    intro l
    simp [skip_space, show is_space (Char.ofNat 32) = true by decide]
  unfold sscanf
  rw [hfmt]
  simp only [sscanf_run_lits]
  simp only [sscanf_run, sp1, k1, u1]

theorem xstrstr_first (mem needle : String) (rest : List Char)
    (h : first_occurrence mem.data needle.data rest) :
    xstrstr (some mem) needle = some (String.mk rest) := by
  obtain ⟨before, htext, hstart, hearlier⟩ := h
  unfold xstrstr
  simp only [htext]
  rw [strstr_first needle.data rest before hstart (by rw [← htext]; exact hearlier)]
  rfl

/-- C17, amended: for a task id that has a record in both collections, when
`cpuacct.stat` reads as `user <u>`, newline, `system <s>`, newline, and in the
text of `memory.stat` the first occurrence of `total_rss` begins a line
`total_rss <r>` and the first occurrence of `total_pgmajfault` begins a line
`total_pgmajfault <f>` (all four decimal numbers below `NO_VAL64`),
`cgroup_p_task_get_acct_data` returns `usec = u`, `ssec = s`, `total_rss = r`
and `total_pgmajfault = f`, none of them `NO_VAL64`. -/
theorem task_get_acct_data_parses (env : Env) (taskid : Nat) (s : cg_state) (a : acct_state)
    (tc tm : task_cg_info_t) (mem : String) (du ds dr df post_r post_f : List Char)
    (hc : list_find_first (a.g_task_acct_list CG_CPUACCT) _find_task_cg_info taskid = some tc)
    (hm : list_find_first (a.g_task_acct_list CG_MEMORY) _find_task_cg_info taskid = some tm)
    (hcpu : env.str s.trace.length (.common_cgroup_get_param tc.task_cg "cpuacct.stat") =
      some (String.mk ("user ".data ++ du ++ "\nsystem ".data ++ ds ++ "\n".data)))
    (hmem : env.str (s.trace.length + 1) (.common_cgroup_get_param tm.task_cg "memory.stat") =
      some mem)
    (hrss : first_occurrence mem.data "total_rss".data
      ("total_rss ".data ++ dr ++ "\n".data ++ post_r))
    (hflt : first_occurrence mem.data "total_pgmajfault".data
      ("total_pgmajfault ".data ++ df ++ "\n".data ++ post_f))
    (hdu : decimal du) (hds : decimal ds) (hdr : decimal dr) (hdf : decimal df) :
    (cgroup_p_task_get_acct_data env taskid s a).1 =
      some
        { usec := dec_value du
          ssec := dec_value ds
          total_rss := dec_value dr
          total_pgmajfault := dec_value df } ∧
    dec_value du ≠ NO_VAL64 ∧ dec_value ds ≠ NO_VAL64 ∧ dec_value dr ≠ NO_VAL64 ∧
    dec_value df ≠ NO_VAL64 := by
  refine ⟨?_, Nat.ne_of_lt hdu.2.2, Nat.ne_of_lt hds.2.2, Nat.ne_of_lt hdr.2.2,
    Nat.ne_of_lt hdf.2.2⟩
  have er : "total_rss ".data ++ dr ++ "\n".data ++ post_r =
      "total_rss".data ++ Char.ofNat 32 :: (dr ++ Char.ofNat 10 :: post_r) := by
    have a1 : "total_rss ".data = "total_rss".data ++ [Char.ofNat 32] := by decide
    have a3 : "\n".data = [Char.ofNat 10] := by decide
    rw [a1, a3]
    simp
  have ef : "total_pgmajfault ".data ++ df ++ "\n".data ++ post_f =
      "total_pgmajfault".data ++ Char.ofNat 32 :: (df ++ Char.ofNat 10 :: post_f) := by
    have a1 : "total_pgmajfault ".data = "total_pgmajfault".data ++ [Char.ofNat 32] := by
      decide
    have a3 : "\n".data = [Char.ofNat 10] := by decide
    rw [a1, a3]
    simp
  have xr := xstrstr_first mem "total_rss" _ hrss
  have xf := xstrstr_first mem "total_pgmajfault" _ hflt
  rw [er] at xr
  rw [ef] at xf
  have sr := sscanf_after_word "total_rss" "total_rss %lu" dr post_r hdr (by decide)
  have sf := sscanf_after_word "total_pgmajfault" "total_pgmajfault %lu" df post_f hdf
    (by decide)
  have sc := sscanf_cpuacct du ds hdu hds
  unfold cgroup_p_task_get_acct_data
  simp only [hc, hm, hcpu, prim_trace, List.length_append, List.length_singleton, hmem, xr, xf,
    sr, sf, sc]
  rfl


/-- Witness of C17, amended: `memory.stat` lists `total_rss` before
`total_rss_huge`, as the kernel does. -/
theorem task_get_acct_data_parses_witness :
    (cgroup_p_task_get_acct_data
      (env_stat "user 12\nsystem 34\n"
        "cache 9\ntotal_rss 7\ntotal_rss_huge 5\ntotal_pgmajfault 3\n")
      3 init_state acct_task3).1 =
      some
        { usec := 12
          ssec := 34
          total_rss := 7
          total_pgmajfault := 3 } :=
  (task_get_acct_data_parses
    (env_stat "user 12\nsystem 34\n"
      "cache 9\ntotal_rss 7\ntotal_rss_huge 5\ntotal_pgmajfault 3\n")
    3 init_state acct_task3 ⟨.task CG_CPUACCT 3, 3⟩ ⟨.task CG_MEMORY 3, 3⟩
    "cache 9\ntotal_rss 7\ntotal_rss_huge 5\ntotal_pgmajfault 3\n"
    "12".data "34".data "7".data "3".data
    "total_rss_huge 5\ntotal_pgmajfault 3\n".data []
    (by decide) (by decide) (by decide) (by decide)
    ⟨"cache 9\n".data, by decide, by decide, by decide⟩
    ⟨"cache 9\ntotal_rss 7\ntotal_rss_huge 5\n".data, by decide, by decide, by decide⟩
    ⟨by decide, by decide, by decide⟩ ⟨by decide, by decide, by decide⟩
    ⟨by decide, by decide, by decide⟩ ⟨by decide, by decide, by decide⟩).1

/-! ### The status of `cgroup_p_step_create` for the memory controller -/

/-- C21, at the failing input: the memory controller; the hierarchy is
created, the writes of `memory.use_hierarchy` to the user and to the job
cgroup succeed, and the write to the step cgroup returns `SLURM_ERROR`.
`cgroup_p_step_create` returns 1, the value of the comparison
`... != SLURM_SUCCESS`, and not `SLURM_ERROR`; when the user-level or the
job-level write fails with `SLURM_ERROR` it returns `SLURM_ERROR`. -/
theorem step_create_memory_step_write_status :
    (new_events init_state
        (cgroup_p_step_create env_step_write_fails CG_MEMORY job0 init_state).2.2).take 4 =
      [⟨.xcgroup_create_hierarchy CG_MEMORY, SLURM_SUCCESS⟩,
       ⟨.common_cgroup_set_param (.user CG_MEMORY) "memory.use_hierarchy" (some "1"),
        SLURM_SUCCESS⟩,
       ⟨.common_cgroup_set_param (.job CG_MEMORY) "memory.use_hierarchy" (some "1"),
        SLURM_SUCCESS⟩,
       ⟨.common_cgroup_set_param (.step CG_MEMORY) "memory.use_hierarchy" (some "1"),
        SLURM_ERROR⟩] ∧
    (cgroup_p_step_create env_step_write_fails CG_MEMORY job0 init_state).1 = 1 ∧
    (cgroup_p_step_create env_step_write_fails CG_MEMORY job0 init_state).1 ≠ SLURM_ERROR ∧
    (cgroup_p_step_create env_user_write_fails CG_MEMORY job0 init_state).1 = SLURM_ERROR ∧
    (cgroup_p_step_create env_job_write_fails CG_MEMORY job0 init_state).1 = SLURM_ERROR := by
  decide

end CgroupV1
